import Mathlib

/-!
# Verification of `aws-instance-type-getter`

Shallow embedding of the data-normalization core of the repository
(`src/aws_instance_type_getter/`): the network-performance parser, the
instance-type field mapper, and the catalog fetch routines, together with
theorems settling the specification claims.

Modelling conventions:
* Python `dict.get(key, default)` over optional raw-record keys is modelled by
  `Option` fields with `Option.getD`.
* Python `float` values parsed from decimal digit strings are modelled exactly
  as rationals (`ℚ`); the digits involved are ASCII decimal digits.
* Python exceptions (`ValueError` from enum coercion or property access) are
  modelled with `Except String`.
* A Python attribute that a code path never assigns (leaving it unset on the
  object) is modelled as an `Option` field holding `none` on that path.
-/

/-! ## Regular-expression primitives

The source uses `re.match` (anchored at the start of the string only) with the
patterns `^Up to (\d+(\.\d+)?) Gigabit` and `((\d+)x )?(\d+(\.\d+)?) Gigabit`.
The matcher below implements exactly these two patterns on `List Char`,
including the (degenerate) backtracking behaviour of the optional groups:
* the greedy `\d+` never has to give digits back, because every continuation
  of both patterns begins with a non-digit character;
* if the optional fractional part `(\.\d+)?` matched, the following literal
  `" Gigabit"` fails with the fraction dropped as well, because the next
  character is then `'.'`;
* if the optional multiplier group `((\d+)x )?` matched but the rest of the
  pattern fails, the alternative that skips the group fails as well, because
  the character after the leading digit run is `'x'`, not `'.'` or `' '`.
-/

/-- Greedy `\d+`-style span: the maximal leading run of decimal digits and the
remainder of the input. -/
def spanDigits : List Char → List Char × List Char
  | [] => ([], [])
  | c :: cs =>
    if c.isDigit then ((spanDigits cs).1.cons c, (spanDigits cs).2)
    else ([], c :: cs)

/-- Decimal value of a digit string, as Python `int` computes it. -/
def digitsToNat (l : List Char) : ℕ :=
  l.foldl (fun a c => 10 * a + (c.toNat - 48)) 0

/-- Exact value of the decimal literal `ip[.fp]`, the number Python's
`float()` receives. -/
def numValue (ip fp : List Char) : ℚ :=
  (digitsToNat ip : ℚ) + (digitsToNat fp : ℚ) / (10 : ℚ) ^ fp.length

/-- The literal `" Gigabit"` that both numeric patterns require after the
number (nothing is required after it: the patterns are not end-anchored). -/
def gigabitLit : List Char := ' ' :: 'G' :: 'i' :: 'g' :: 'a' :: 'b' :: 'i' :: 't' :: []

/-- The literal `"Up to "`. -/
def upToLit : List Char := 'U' :: 'p' :: ' ' :: 't' :: 'o' :: ' ' :: []

/-- Matcher for `(\d+(\.\d+)?) Gigabit` anchored at the head of `l`;
returns the value of the captured number on success. -/
def matchNumGigabit (l : List Char) : Option ℚ :=
  match spanDigits l with
  | ([], _) => none
  | (d :: ds, '.' :: r2) =>
    match spanDigits r2 with
    | ([], _) => none
    | (f :: fs, r3) =>
      if gigabitLit.isPrefixOf r3 then some (numValue (d :: ds) (f :: fs)) else none
  | (d :: ds, r1) =>
    if gigabitLit.isPrefixOf r1 then some (numValue (d :: ds) []) else none

/-- Matcher for `^Up to (\d+(\.\d+)?) Gigabit`. -/
def matchUpTo (l : List Char) : Option ℚ :=
  if upToLit.isPrefixOf l then matchNumGigabit (l.drop 6) else none

/-- Matcher for `((\d+)x )?(\d+(\.\d+)?) Gigabit`: `some (some n, q)` when the
multiplier group matched with value `n`, `some (none, q)` when it did not. -/
def matchMult (l : List Char) : Option (Option ℕ × ℚ) :=
  match spanDigits l with
  | (d :: ds, 'x' :: ' ' :: r2) =>
    match matchNumGigabit r2 with
    | some q => some (some (digitsToNat (d :: ds)), q)
    | none => none
  | _ => (matchNumGigabit l).map fun q => (none, q)

/-! ## Network performance (`_InstanceNetworkPerformance`) -/

/-- `InstanceNetworkPerformanceType` enum. -/
inductive InstanceNetworkPerformanceType where
  | UPBOUND
  | SINGLE
  | MULTIPLE
  | FUZZY
  | UNKNOWN
deriving DecidableEq, Repr

/-- `InstanceNetworkFuzzySpeed` enum. -/
inductive InstanceNetworkFuzzySpeed where
  | VERY_LOW
  | LOW
  | LOW_TO_MODERATE
  | MODERATE
  | HIGH
  | INVALID
deriving DecidableEq, Repr

/-- The `_InstanceNetworkPerformance` object: the stored attributes
`_spec`, `_performance_type`, `_performance_fuzzy_value`, `_speed`,
`_aggregation`. -/
structure InstanceNetworkPerformance where
  spec : String
  performanceType : InstanceNetworkPerformanceType
  fuzzyStored : InstanceNetworkFuzzySpeed
  speedStored : ℚ
  aggregation : ℕ
deriving DecidableEq, Repr

/-- `_InstanceNetworkPerformance.__init__`: parse the free-text spec. -/
def InstanceNetworkPerformance.init (spec : String) : InstanceNetworkPerformance :=
  if spec = "Very Low" then ⟨spec, .FUZZY, .VERY_LOW, 0, 1⟩
  else if spec = "Low" then ⟨spec, .FUZZY, .LOW, 0, 1⟩
  else if spec = "Low to Moderate" then ⟨spec, .FUZZY, .LOW_TO_MODERATE, 0, 1⟩
  else if spec = "Moderate" then ⟨spec, .FUZZY, .MODERATE, 0, 1⟩
  else if spec = "High" then ⟨spec, .FUZZY, .HIGH, 0, 1⟩
  else
    match matchUpTo spec.data with
    | some q => ⟨spec, .UPBOUND, .INVALID, q, 1⟩
    | none =>
      match matchMult spec.data with
      | some (some n, q) => ⟨spec, .MULTIPLE, .INVALID, q, n⟩
      | some (none, q) => ⟨spec, .SINGLE, .INVALID, q, 1⟩
      | none => ⟨spec, .UNKNOWN, .INVALID, 0, 1⟩

/-- The `performance_fuzzy_value` property: raises `ValueError` unless the
performance type is `FUZZY`. -/
def InstanceNetworkPerformance.performance_fuzzy_value
    (p : InstanceNetworkPerformance) : Except String InstanceNetworkFuzzySpeed :=
  if p.performanceType ≠ .FUZZY then .error "Speed is not fuzzy"
  else .ok p.fuzzyStored

/-- The `speed` property: raises `ValueError` when the performance type is
`FUZZY`. -/
def InstanceNetworkPerformance.speed
    (p : InstanceNetworkPerformance) : Except String ℚ :=
  if p.performanceType = .FUZZY then .error "Speed is fuzzy"
  else .ok p.speedStored

/-- `__str__`: returns the input spec value verbatim. -/
def InstanceNetworkPerformance.toStr (p : InstanceNetworkPerformance) : String :=
  p.spec

/-! ## Enumerations and their string coercions

Python's `SomeEnum(value)` looks the string up among the enum's values and
raises `ValueError` when it is not one of them; `fromString` renders that as
`Except String`. -/

/-- `CpuArchitectures` enum. -/
inductive CpuArchitectures where
  | ARM64
  | ARM64_MAC
  | X86
  | X64
  | X64_MAC
deriving DecidableEq, Repr

/-- Coercion `CpuArchitectures(value)`. -/
def CpuArchitectures.fromString : String → Except String CpuArchitectures
  | "arm64" => .ok .ARM64
  | "arm64_mac" => .ok .ARM64_MAC
  | "i386" => .ok .X86
  | "x86_64" => .ok .X64
  | "x86_64_mac" => .ok .X64_MAC
  | s => .error ("ValueError: " ++ s ++ " is not a valid CpuArchitectures")

/-- `NvmeSupportStatus` enum (never coerced from raw data in this code). -/
inductive NvmeSupportStatus where
  | REQUIRED
  | SUPPORTED
  | NOT_SUPPORTED
deriving DecidableEq, Repr

/-- `InstanceStorageType` enum. -/
inductive InstanceStorageType where
  | SSD
  | HDD
deriving DecidableEq, Repr

/-- Coercion `InstanceStorageType(value)`. -/
def InstanceStorageType.fromString : String → Except String InstanceStorageType
  | "ssd" => .ok .SSD
  | "hdd" => .ok .HDD
  | s => .error ("ValueError: " ++ s ++ " is not a valid InstanceStorageType")

/-- `EbsOptimizeSupportStatus` enum. -/
inductive EbsOptimizeSupportStatus where
  | DEFAULT_ENABLED
  | CAN_ENABLE
  | NOT_SUPPORTED
deriving DecidableEq, Repr

/-- Coercion `EbsOptimizeSupportStatus(value)`. -/
def EbsOptimizeSupportStatus.fromString :
    String → Except String EbsOptimizeSupportStatus
  | "default" => .ok .DEFAULT_ENABLED
  | "supported" => .ok .CAN_ENABLE
  | "unsupported" => .ok .NOT_SUPPORTED
  | s => .error ("ValueError: " ++ s ++ " is not a valid EbsOptimizeSupportStatus")

/-- `EnaSupport` enum. -/
inductive EnaSupport where
  | REQUIRED
  | SUPPORTED
  | NOT_SUPPORTED
deriving DecidableEq, Repr

/-- Coercion `EnaSupport(value)`. -/
def EnaSupport.fromString : String → Except String EnaSupport
  | "required" => .ok .REQUIRED
  | "supported" => .ok .SUPPORTED
  | "unsupported" => .ok .NOT_SUPPORTED
  | s => .error ("ValueError: " ++ s ++ " is not a valid EnaSupport")

/-- `PlacementStrategy` enum. -/
inductive PlacementStrategy where
  | CLUSTER
  | PARTITION
  | SPREAD
deriving DecidableEq, Repr

/-- Coercion `PlacementStrategy(value)`. -/
def PlacementStrategy.fromString : String → Except String PlacementStrategy
  | "cluster" => .ok .CLUSTER
  | "partition" => .ok .PARTITION
  | "spread" => .ok .SPREAD
  | s => .error ("ValueError: " ++ s ++ " is not a valid PlacementStrategy")

/-! ## Domain value classes -/

/-- `_InstanceStorageInfo`: one instance-store disk description. -/
structure InstanceStorageDisk where
  size : ℕ
  count : ℕ
  storage_type : InstanceStorageType
deriving DecidableEq, Repr

/-- `_NetworkCard`. -/
structure NetworkCard where
  index : ℕ
  performance : InstanceNetworkPerformance
  max_interfaces : ℕ
deriving DecidableEq, Repr

/-- `_GraphicBoard`. -/
structure GraphicBoard where
  name : String
  manufacturer : String
  count : ℕ
  memory : ℕ
deriving DecidableEq, Repr

/-- `_FpgaBoard`. -/
structure FpgaBoard where
  name : String
  manufacturer : String
  count : ℕ
  memory : ℕ
deriving DecidableEq, Repr

/-- `_InterfaceAccelerator`. -/
structure InterfaceAccelerator where
  name : String
  manufacturer : String
  count : ℕ
deriving DecidableEq, Repr

/-! ## Raw instance-type records

`InstanceTypeInfoTypeDef` as consumed by `InstanceType.__init__`: every key the
mapper reads, each one optional. Integer-valued keys are modelled as `ℕ` and
float-valued keys as `ℚ`. -/

/-- Raw `ProcessorInfo` sub-record. -/
structure RawProcessorInfo where
  SupportedArchitectures : Option (List String) := none
  SustainedClockSpeedInGhz : Option ℚ := none
  SupportedFeatures : Option (List String) := none
deriving DecidableEq, Repr

/-- Raw `VCpuInfo` sub-record. -/
structure RawVCpuInfo where
  DefaultVCpus : Option ℕ := none
  DefaultCores : Option ℕ := none
  DefaultThreadsPerCore : Option ℕ := none
deriving DecidableEq, Repr

/-- Raw `MemoryInfo` sub-record. -/
structure RawMemoryInfo where
  SizeInMiB : Option ℕ := none
deriving DecidableEq, Repr

/-- Raw disk entry of `InstanceStorageInfo.Disks`; the raw key `"Type"` is
spelled `DiskType` here because `Type` is reserved in Lean. -/
structure RawDisk where
  SizeInGB : Option ℕ := none
  Count : Option ℕ := none
  DiskType : Option String := none
deriving DecidableEq, Repr

/-- Raw `InstanceStorageInfo` sub-record. -/
structure RawInstanceStorageInfo where
  TotalSizeInGB : Option ℕ := none
  Disks : Option (List RawDisk) := none
  EncryptionSupport : Option String := none
deriving DecidableEq, Repr

/-- Raw `EbsOptimizedInfo` sub-record. -/
structure RawEbsOptimizedInfo where
  BaselineBandwidthInMbps : Option ℕ := none
  BaselineThroughputInMBps : Option ℚ := none
  BaselineIops : Option ℕ := none
  MaximumBandwidthInMbps : Option ℕ := none
  MaximumThroughputInMBps : Option ℚ := none
  MaximumIops : Option ℕ := none
deriving DecidableEq, Repr

/-- Raw `EbsInfo` sub-record. -/
structure RawEbsInfo where
  EbsOptimizedSupport : Option String := none
  EncryptionSupport : Option String := none
  NvmeSupport : Option String := none
  EbsOptimizedInfo : Option RawEbsOptimizedInfo := none
deriving DecidableEq, Repr

/-- Raw entry of `NetworkInfo.NetworkCards`. -/
structure RawNetworkCard where
  NetworkCardIndex : Option ℕ := none
  NetworkPerformance : Option String := none
  MaximumNetworkInterfaces : Option ℕ := none
deriving DecidableEq, Repr

/-- Raw `EfaInfo` sub-record. -/
structure RawEfaInfo where
  MaximumEfaInterfaces : Option ℕ := none
deriving DecidableEq, Repr

/-- Raw `NetworkInfo` sub-record. -/
structure RawNetworkInfo where
  NetworkPerformance : Option String := none
  MaximumNetworkInterfaces : Option ℕ := none
  MaximumNetworkCards : Option ℕ := none
  DefaultNetworkCardIndex : Option ℕ := none
  NetworkCards : Option (List RawNetworkCard) := none
  Ipv6Supported : Option Bool := none
  Ipv4AddressesPerInterface : Option ℕ := none
  Ipv6AddressesPerInterface : Option ℕ := none
  EnaSupport : Option String := none
  EfaSupported : Option Bool := none
  EfaInfo : Option RawEfaInfo := none
deriving DecidableEq, Repr

/-- Raw GPU/FPGA `MemoryInfo` sub-record. -/
structure RawBoardMemoryInfo where
  SizeInMiB : Option ℕ := none
deriving DecidableEq, Repr

/-- Raw entry of `GpuInfo.Gpus`. -/
structure RawGpu where
  Name : Option String := none
  Manufacturer : Option String := none
  Count : Option ℕ := none
  MemoryInfo : Option RawBoardMemoryInfo := none
deriving DecidableEq, Repr

/-- Raw `GpuInfo` sub-record. -/
structure RawGpuInfo where
  Gpus : Option (List RawGpu) := none
  TotalGpuMemoryInMiB : Option ℕ := none
deriving DecidableEq, Repr

/-- Raw entry of `FpgaInfo.Fpgas`. -/
structure RawFpga where
  Name : Option String := none
  Manufacturer : Option String := none
  Count : Option ℕ := none
  MemoryInfo : Option RawBoardMemoryInfo := none
deriving DecidableEq, Repr

/-- Raw `FpgaInfo` sub-record. -/
structure RawFpgaInfo where
  Fpgas : Option (List RawFpga) := none
  TotalFpgaMemoryInMiB : Option ℕ := none
deriving DecidableEq, Repr

/-- Raw entry of `InferenceAcceleratorInfo.Accelerators`. -/
structure RawAccelerator where
  Name : Option String := none
  Manufacturer : Option String := none
  Count : Option ℕ := none
deriving DecidableEq, Repr

/-- Raw `InferenceAcceleratorInfo` sub-record. -/
structure RawInferenceAcceleratorInfo where
  Accelerators : Option (List RawAccelerator) := none
deriving DecidableEq, Repr

/-- Raw `PlacementGroupInfo` sub-record. -/
structure RawPlacementGroupInfo where
  SupportedStrategies : Option (List String) := none
deriving DecidableEq, Repr

/-- One raw instance-type record. -/
structure RawInstanceType where
  InstanceType : Option String := none
  CurrentGeneration : Option Bool := none
  SupportedUsageClasses : Option (List String) := none
  SupportedRootDeviceTypes : Option (List String) := none
  ProcessorInfo : Option RawProcessorInfo := none
  VCpuInfo : Option RawVCpuInfo := none
  MemoryInfo : Option RawMemoryInfo := none
  InstanceStorageSupported : Option Bool := none
  InstanceStorageInfo : Option RawInstanceStorageInfo := none
  EbsInfo : Option RawEbsInfo := none
  NetworkInfo : Option RawNetworkInfo := none
  GpuInfo : Option RawGpuInfo := none
  FpgaInfo : Option RawFpgaInfo := none
  InferenceAcceleratorInfo : Option RawInferenceAcceleratorInfo := none
  PlacementGroupInfo : Option RawPlacementGroupInfo := none
  HibernationSupported : Option Bool := none
  BurstablePerformanceSupported : Option Bool := none
deriving DecidableEq, Repr

/-! ## The `InstanceType` aggregate -/

/-- The `InstanceType` object with every attribute `__init__` assigns.
`instance_store_nvme_support` and `interface_accelerators` are `Option`
fields because the source leaves the corresponding Python attributes unset on
one branch (`none` models "attribute never assigned"). -/
structure InstanceType where
  name : String
  is_current : Bool
  supports_on_demand : Bool
  supports_spot : Bool
  supports_ebs_root : Bool
  supports_instance_store_root : Bool
  support_cpus : List CpuArchitectures
  cpu_speed : ℚ
  supports_sev_snp : Bool
  default_vcpus : ℕ
  default_cores : ℕ
  default_threads_per_core : ℕ
  memory_size : ℕ
  has_instance_store : Bool
  total_instance_store_size : ℕ
  instance_store_disks : List InstanceStorageDisk
  instance_store_nvme_support : Option NvmeSupportStatus
  instance_store_encryption : Bool
  support_ebs_optimize : EbsOptimizeSupportStatus
  support_ebs_encrypt : Bool
  support_ebs_nvme : Bool
  ebs_optimize_base_band : ℕ
  ebs_optimize_base_throughput : ℚ
  ebs_optimize_base_iops : ℕ
  ebs_optimize_max_band : ℕ
  ebs_optimize_max_throughput : ℚ
  ebs_optimize_max_iops : ℕ
  net_performance : Option InstanceNetworkPerformance
  max_net_interface : ℕ
  max_net_cards : ℕ
  default_card_index : ℕ
  net_cards : List NetworkCard
  support_ipv6 : Bool
  ipv4_addr_per_interface : ℕ
  ipv6_addr_per_interface : ℕ
  ena_support : EnaSupport
  efa_supported : Bool
  max_efa_interfaces : ℕ
  gpu_support : Bool
  gpus : List GraphicBoard
  total_gpu_memory : ℕ
  fpga_support : Bool
  fpgas : List FpgaBoard
  total_fpga_memory : ℕ
  interface_accelerator_support : Bool
  interface_accelerators : Option (List InterfaceAccelerator)
  placement_strategies : List PlacementStrategy
  support_hibernation : Bool
  burstable : Bool
deriving DecidableEq, Repr

/-- The infallible part of `InstanceType.__init__`: assembles the object from
the raw record and the already-coerced enumerated values, field for field in
source order. -/
def InstanceType.assemble (data : RawInstanceType)
    (support_cpus : List CpuArchitectures)
    (instance_store_disks : List InstanceStorageDisk)
    (support_ebs_optimize : EbsOptimizeSupportStatus)
    (ena_support : EnaSupport)
    (placement_strategies : List PlacementStrategy) : InstanceType :=
  let usage_classes := data.SupportedUsageClasses.getD []
  let root_devices := data.SupportedRootDeviceTypes.getD []
  let processor_info := data.ProcessorInfo.getD {}
  let vcpu_info := data.VCpuInfo.getD {}
  let has_instance_store := data.InstanceStorageSupported.getD false
  let instance_store_info := data.InstanceStorageInfo.getD {}
  let ebs_status := data.EbsInfo.getD {}
  let opt_info := ebs_status.EbsOptimizedInfo.getD {}
  let ebs_optimize_on := support_ebs_optimize ≠ EbsOptimizeSupportStatus.NOT_SUPPORTED
  let net_info := data.NetworkInfo.getD {}
  let support_ipv6 := net_info.Ipv6Supported.getD false
  let efa_supported := net_info.EfaSupported.getD false
  let gpu_info := data.GpuInfo.getD {}
  let fpga_info := data.FpgaInfo.getD {}
  let accel_info := data.InferenceAcceleratorInfo.getD {}
  { name := data.InstanceType.getD "t1.micro"
    is_current := data.CurrentGeneration.getD true
    supports_on_demand := usage_classes.contains "on-demand"
    supports_spot := usage_classes.contains "spot"
    supports_ebs_root := root_devices.contains "ebs"
    supports_instance_store_root := root_devices.contains "instance-store"
    support_cpus := support_cpus
    cpu_speed := processor_info.SustainedClockSpeedInGhz.getD 0
    supports_sev_snp := (processor_info.SupportedFeatures.getD []).contains "amd-sev-snp"
    default_vcpus := vcpu_info.DefaultVCpus.getD 1
    default_cores := vcpu_info.DefaultCores.getD 1
    default_threads_per_core := vcpu_info.DefaultThreadsPerCore.getD 1
    memory_size := (data.MemoryInfo.getD {}).SizeInMiB.getD 0
    has_instance_store := has_instance_store
    total_instance_store_size :=
      if has_instance_store then instance_store_info.TotalSizeInGB.getD 0 else 0
    instance_store_disks := instance_store_disks
    instance_store_nvme_support :=
      if has_instance_store then none else some NvmeSupportStatus.NOT_SUPPORTED
    instance_store_encryption :=
      if has_instance_store then
        instance_store_info.EncryptionSupport = some "required"
      else false
    support_ebs_optimize := support_ebs_optimize
    support_ebs_encrypt := ebs_status.EncryptionSupport.getD "unsupported" = "supported"
    support_ebs_nvme := ebs_status.NvmeSupport.getD "supported" = "supported"
    ebs_optimize_base_band :=
      if ebs_optimize_on then opt_info.BaselineBandwidthInMbps.getD 0 else 0
    ebs_optimize_base_throughput :=
      if ebs_optimize_on then opt_info.BaselineThroughputInMBps.getD 0 else 0
    ebs_optimize_base_iops :=
      if ebs_optimize_on then opt_info.BaselineIops.getD 0 else 0
    ebs_optimize_max_band :=
      if ebs_optimize_on then opt_info.MaximumBandwidthInMbps.getD 0 else 0
    ebs_optimize_max_throughput :=
      if ebs_optimize_on then opt_info.MaximumThroughputInMBps.getD 0 else 0
    ebs_optimize_max_iops :=
      if ebs_optimize_on then opt_info.MaximumIops.getD 0 else 0
    net_performance :=
      match net_info.NetworkPerformance with
      | some s => if s = "" then none else some (InstanceNetworkPerformance.init s)
      | none => none
    max_net_interface := net_info.MaximumNetworkInterfaces.getD 1
    max_net_cards := net_info.MaximumNetworkCards.getD 1
    default_card_index := net_info.DefaultNetworkCardIndex.getD 0
    net_cards :=
      (net_info.NetworkCards.getD []).enum.map fun ic =>
        { index := ic.2.NetworkCardIndex.getD ic.1
          performance := InstanceNetworkPerformance.init (ic.2.NetworkPerformance.getD "")
          max_interfaces := ic.2.MaximumNetworkInterfaces.getD 1 }
    support_ipv6 := support_ipv6
    ipv4_addr_per_interface := net_info.Ipv4AddressesPerInterface.getD 1
    ipv6_addr_per_interface :=
      net_info.Ipv6AddressesPerInterface.getD (if support_ipv6 then 1 else 0)
    ena_support := ena_support
    efa_supported := efa_supported
    max_efa_interfaces :=
      (net_info.EfaInfo.getD {}).MaximumEfaInterfaces.getD
        (if efa_supported then 1 else 0)
    gpu_support := data.GpuInfo.isSome
    gpus :=
      if data.GpuInfo.isSome then
        (gpu_info.Gpus.getD []).map fun g =>
          { name := g.Name.getD ""
            manufacturer := g.Manufacturer.getD ""
            count := g.Count.getD 1
            memory := (g.MemoryInfo.getD {}).SizeInMiB.getD 0 }
      else []
    total_gpu_memory :=
      if data.GpuInfo.isSome then gpu_info.TotalGpuMemoryInMiB.getD 0 else 0
    fpga_support := data.FpgaInfo.isSome
    fpgas :=
      if data.FpgaInfo.isSome then
        (fpga_info.Fpgas.getD []).map fun b =>
          { name := b.Name.getD ""
            manufacturer := b.Manufacturer.getD ""
            count := b.Count.getD 1
            memory := (b.MemoryInfo.getD {}).SizeInMiB.getD 0 }
      else []
    total_fpga_memory :=
      if data.FpgaInfo.isSome then fpga_info.TotalFpgaMemoryInMiB.getD 0 else 0
    interface_accelerator_support := data.InferenceAcceleratorInfo.isSome
    interface_accelerators :=
      if data.InferenceAcceleratorInfo.isSome then
        some ((accel_info.Accelerators.getD []).map fun ia =>
          { name := ia.Name.getD ""
            manufacturer := ia.Manufacturer.getD ""
            count := ia.Count.getD 1 })
      else none
    placement_strategies := placement_strategies
    support_hibernation := data.HibernationSupported.getD false
    burstable := data.BurstablePerformanceSupported.getD false }

/-- The per-disk mapping of the instance-store branch:
`_InstanceStorageInfo(d.get("SizeInGB", 0), d.get("Count", 1),
InstanceStorageType(d.get("Type", "ssd")))`. -/
def diskInit (d : RawDisk) : Except String InstanceStorageDisk := do
  let t ← InstanceStorageType.fromString (d.DiskType.getD "ssd")
  pure (InstanceStorageDisk.mk (d.SizeInGB.getD 0) (d.Count.getD 1) t)

/-- The instance-store disk list: mapped from the raw `Disks` only when
`InstanceStorageSupported` is truthy, `[]` otherwise (the disk-type coercion
never runs in that case). -/
def disksInit (data : RawInstanceType) : Except String (List InstanceStorageDisk) :=
  if data.InstanceStorageSupported.getD false then
    ((data.InstanceStorageInfo.getD {}).Disks.getD []).mapM diskInit
  else pure []

/-- `InstanceType.__init__`: the fallible enum coercions happen in source
order (supported architectures, instance-store disk types — only when
`InstanceStorageSupported` is truthy —, EBS-optimize tier, ENA tier, placement
strategies); the first `ValueError` aborts the construction, as an uncaught
Python exception would. -/
def InstanceType.init (data : RawInstanceType) : Except String InstanceType := do
  let support_cpus ←
    ((data.ProcessorInfo.getD {}).SupportedArchitectures.getD []).mapM
      CpuArchitectures.fromString
  let instance_store_disks ← disksInit data
  let support_ebs_optimize ←
    EbsOptimizeSupportStatus.fromString
      ((data.EbsInfo.getD {}).EbsOptimizedSupport.getD "unsupported")
  let ena_support ←
    EnaSupport.fromString ((data.NetworkInfo.getD {}).EnaSupport.getD "unsupported")
  let placement_strategies ←
    ((data.PlacementGroupInfo.getD {}).SupportedStrategies.getD []).mapM
      PlacementStrategy.fromString
  pure (InstanceType.assemble data support_cpus instance_store_disks
    support_ebs_optimize ena_support placement_strategies)

/-! ## Instance-type fetch (`get_instance_types`)

`ec2.describe_instance_types` is modelled as the sequence of responses the
provider returns to the successive calls the loop makes: the function
consumes the head response, and keeps consuming further responses exactly
while the last consumed response carried a `NextToken`. -/

/-- One `describe_instance_types` response page. -/
structure InstanceTypesPage where
  InstanceTypes : List RawInstanceType := []
  NextToken : Option String := none
deriving DecidableEq, Repr

/-- `get_instance_types`: map the first page, then keep following
`NextToken` continuation, extending the result list in order. -/
def get_instance_types : List InstanceTypesPage → Except String (List InstanceType)
  | [] => pure []
  | page :: rest => do
    let its ← page.InstanceTypes.mapM InstanceType.init
    match page.NextToken with
    | none => pure its
    | some _ => do
      let more ← get_instance_types rest
      pure (its ++ more)

/-! ## Region fetch (`get_regions`)

`ec2.describe_regions` (already filtered server-side on opt-in status) is
modelled by the returned list of region names, and
`ssm.get_parameters_by_path` by a function from the requested path to the
returned parameter list. -/

/-- One SSM parameter of a `get_parameters_by_path` response. -/
structure SsmParameter where
  Name : String
  Value : String
deriving DecidableEq, Repr

/-- `_RegionInfo`. -/
structure RegionInfo where
  name : String
  location : String
  display_name : String
deriving DecidableEq, Repr

/-- The per-region SSM parameter path. -/
def regionParamPath (region_name : String) : String :=
  "/aws/service/global-infrastructure/regions/" ++ region_name

/-- The parameter scan of `get_regions`: one pass over the response, the
`geolocationRegion` and `longName` values each overwritten on every match
(the last occurrence wins), `none` when never seen. -/
def resolveRegionParams (path : String) (params : List SsmParameter) :
    Option String × Option String :=
  params.foldl
    (fun acc p =>
      (if p.Name = path ++ "/geolocationRegion" then some p.Value else acc.1,
       if p.Name = path ++ "/longName" then some p.Value else acc.2))
    (none, none)

/-- `get_regions`: for each listed region name resolve location and display
name; `if not location or not display_name: continue` skips the region when
either is `None` or the empty string (Python falsiness). -/
def get_regions (ssm : String → List SsmParameter) :
    List String → List RegionInfo
  | [] => []
  | region_name :: rest =>
    let path := regionParamPath region_name
    match resolveRegionParams path (ssm path) with
    | (some location, some display_name) =>
      if location = "" ∨ display_name = "" then get_regions ssm rest
      else ⟨region_name, location, display_name⟩ :: get_regions ssm rest
    | _ => get_regions ssm rest

/-! ## Availability-zone fetch (`get_zones`) -/

/-- `ZoneType` enum. -/
inductive ZoneType where
  | AZ
  | LOCAL
  | WAVELENGTH
deriving DecidableEq, Repr

/-- Coercion `ZoneType(value)`. -/
def ZoneType.fromString : String → Except String ZoneType
  | "availability-zone" => .ok .AZ
  | "local-zone" => .ok .LOCAL
  | "wavelength-zone" => .ok .WAVELENGTH
  | s => .error ("ValueError: " ++ s ++ " is not a valid ZoneType")

/-- One raw availability-zone record (the three keys `get_zones` reads,
all required by the response type). -/
structure RawAvailabilityZone where
  ZoneName : String
  ZoneId : String
  ZoneType : String
deriving DecidableEq, Repr

/-- `AvailabilityZone`. -/
structure AvailabilityZone where
  name : String
  zone_id : String
  zone_type : ZoneType
deriving DecidableEq, Repr

/-- The per-zone mapping of `get_zones`:
`AvailabilityZone(az["ZoneName"], az["ZoneId"], ZoneType(az["ZoneType"]))`. -/
def zoneInit (az : RawAvailabilityZone) : Except String AvailabilityZone := do
  let zt ← ZoneType.fromString az.ZoneType
  pure (AvailabilityZone.mk az.ZoneName az.ZoneId zt)

/-- `get_zones`: map each raw zone of the (server-side filtered) response,
coercing the zone type; an out-of-set zone type raises. -/
def get_zones (zones : List RawAvailabilityZone) :
    Except String (List AvailabilityZone) :=
  zones.mapM zoneInit

/-! ## Spec-side shapes of the parser's numeric patterns

These predicates state, purely in terms of string decomposition, what it
means for an input to match each numeric pattern of the spec:
`"Up to <number> Gigabit"`, `"<N>x <number> Gigabit"`, and
`"<number> Gigabit"`, each anchored at the start only. -/

/-- Character content of the decimal literal `ip[.fp]`. -/
def numTokenChars (ip fp : List Char) : List Char :=
  ip ++ (if fp = [] then [] else '.' :: fp)

/-- `ip[.fp]` is a well-formed number token: a nonempty integer part of
digits, and a fractional part of digits (empty meaning no fraction). -/
def NumToken (ip fp : List Char) : Prop :=
  ip ≠ [] ∧ (∀ c ∈ ip, c.isDigit) ∧ (∀ c ∈ fp, c.isDigit)

/-- `l` begins with `"Up to <number> Gigabit"`. -/
def UpToShape (l : List Char) : Prop :=
  ∃ ip fp rest, NumToken ip fp ∧ l = upToLit ++ numTokenChars ip fp ++ gigabitLit ++ rest

/-- `l` begins with `"<N>x <number> Gigabit"`. -/
def MultShape (l : List Char) : Prop :=
  ∃ m ip fp rest, m ≠ [] ∧ (∀ c ∈ m, c.isDigit) ∧ NumToken ip fp ∧
    l = m ++ 'x' :: ' ' :: (numTokenChars ip fp ++ gigabitLit ++ rest)

/-- `l` begins with `"<number> Gigabit"` (no multiplier). -/
def SingleShape (l : List Char) : Prop :=
  ∃ ip fp rest, NumToken ip fp ∧ l = numTokenChars ip fp ++ gigabitLit ++ rest

/-! ## Lemmas about the matcher primitives -/

theorem spanDigits_join (l : List Char) : (spanDigits l).1 ++ (spanDigits l).2 = l := by
  induction l with
  | nil => rfl
  | cons c cs ih =>
    by_cases hc : c.isDigit <;> simp [spanDigits, hc, ih]

theorem spanDigits_fst_digits (l : List Char) : ∀ c ∈ (spanDigits l).1, c.isDigit := by
  induction l with
  | nil => simp [spanDigits]
  | cons c cs ih =>
    by_cases hc : c.isDigit
    · intro x hx
      simp only [spanDigits, hc, if_true, List.cons, List.mem_cons] at hx
      rcases hx with rfl | hx
      · exact hc
      · exact ih x hx
    · simp [spanDigits, hc]

theorem spanDigits_snd_head (l : List Char) :
    ∀ c ∈ (spanDigits l).2.head?, c.isDigit = false := by
  induction l with
  | nil => simp [spanDigits]
  | cons c cs ih =>
    by_cases hc : c.isDigit
    · simpa [spanDigits, hc] using ih
    · simp [spanDigits, hc]

theorem spanDigits_append (a b : List Char) (ha : ∀ c ∈ a, c.isDigit)
    (hb : ∀ c ∈ b.head?, c.isDigit = false) : spanDigits (a ++ b) = (a, b) := by
  induction a with
  | nil =>
    cases b with
    | nil => rfl
    | cons c cs =>
      have hc : c.isDigit = false := hb c (by simp)
      simp [spanDigits, hc]
  | cons c cs ih =>
    have hc : c.isDigit := ha c (by simp)
    have := ih (fun x hx => ha x (by simp [hx]))
    simp [spanDigits, hc, this]

theorem isPrefixOf_append_self (a b : List Char) : a.isPrefixOf (a ++ b) = true := by
  induction a with
  | nil => cases b <;> rfl
  | cons c cs ih => simp [List.isPrefixOf, ih]

theorem exists_of_isPrefixOf {a b : List Char} (h : a.isPrefixOf b = true) :
    ∃ t, b = a ++ t := by
  induction a generalizing b with
  | nil => exact ⟨b, rfl⟩
  | cons c cs ih =>
    cases b with
    | nil => simp [List.isPrefixOf] at h
    | cons d ds =>
      simp only [List.isPrefixOf, Bool.and_eq_true, beq_iff_eq] at h
      obtain ⟨t, ht⟩ := ih h.2
      exact ⟨t, by simp [h.1, ht]⟩

theorem gigabit_head (rest : List Char) :
    ((gigabitLit ++ rest).head?) = some ' ' := rfl

theorem matchNumGigabit_complete (ip fp rest : List Char) (h1 : ip ≠ [])
    (h2 : ∀ c ∈ ip, c.isDigit) (h3 : ∀ c ∈ fp, c.isDigit) :
    matchNumGigabit (numTokenChars ip fp ++ gigabitLit ++ rest) = some (numValue ip fp) := by
  obtain ⟨d, ds, rfl⟩ : ∃ d ds, ip = d :: ds := by
    cases ip with
    | nil => exact absurd rfl h1
    | cons d ds => exact ⟨d, ds, rfl⟩
  by_cases hfp : fp = []
  · subst hfp
    have hspan : spanDigits ((d :: ds) ++ (gigabitLit ++ rest)) =
        (d :: ds, gigabitLit ++ rest) := by
      refine spanDigits_append _ _ h2 ?_
      intro c hc
      rw [gigabit_head] at hc
      simp only [Option.mem_def, Option.some_inj] at hc
      subst hc
      decide
    have harg : numTokenChars (d :: ds) [] ++ gigabitLit ++ rest =
        (d :: ds) ++ (gigabitLit ++ rest) := by
      simp [numTokenChars]
    rw [harg]
    unfold matchNumGigabit
    rw [hspan]
    simp [gigabitLit, isPrefixOf_append_self]
  · obtain ⟨f, fs, rfl⟩ : ∃ f fs, fp = f :: fs := by
      cases fp with
      | nil => exact absurd rfl hfp
      | cons f fs => exact ⟨f, fs, rfl⟩
    have hspan2 : spanDigits ((f :: fs) ++ (gigabitLit ++ rest)) =
        (f :: fs, gigabitLit ++ rest) := by
      refine spanDigits_append _ _ h3 ?_
      intro c hc
      rw [gigabit_head] at hc
      simp only [Option.mem_def, Option.some_inj] at hc
      subst hc
      decide
    have hspan : spanDigits ((d :: ds) ++ ('.' :: ((f :: fs) ++ (gigabitLit ++ rest)))) =
        (d :: ds, '.' :: ((f :: fs) ++ (gigabitLit ++ rest))) := by
      refine spanDigits_append _ _ h2 ?_
      intro c hc
      simp only [List.head?, Option.mem_def, Option.some_inj] at hc
      subst hc
      decide
    have harg : numTokenChars (d :: ds) (f :: fs) ++ gigabitLit ++ rest =
        (d :: ds) ++ ('.' :: ((f :: fs) ++ (gigabitLit ++ rest))) := by
      simp [numTokenChars]
    rw [harg]
    unfold matchNumGigabit
    rw [hspan]
    simp only []
    rw [hspan2]
    simp [isPrefixOf_append_self]

theorem matchUpTo_complete (ip fp rest : List Char) (h1 : ip ≠ [])
    (h2 : ∀ c ∈ ip, c.isDigit) (h3 : ∀ c ∈ fp, c.isDigit) :
    matchUpTo (upToLit ++ numTokenChars ip fp ++ gigabitLit ++ rest) =
      some (numValue ip fp) := by
  unfold matchUpTo
  have hpre : upToLit.isPrefixOf (upToLit ++ numTokenChars ip fp ++ gigabitLit ++ rest) =
      true := by
    have := isPrefixOf_append_self upToLit (numTokenChars ip fp ++ gigabitLit ++ rest)
    simpa using this
  rw [hpre]
  have hdrop : (upToLit ++ numTokenChars ip fp ++ gigabitLit ++ rest).drop 6 =
      numTokenChars ip fp ++ gigabitLit ++ rest := by
    simp [upToLit]
  simp only [if_true]
  rw [hdrop]
  exact matchNumGigabit_complete ip fp rest h1 h2 h3

theorem matchMult_complete_mult (m ip fp rest : List Char) (hm : m ≠ [])
    (hmd : ∀ c ∈ m, c.isDigit) (h1 : ip ≠ []) (h2 : ∀ c ∈ ip, c.isDigit)
    (h3 : ∀ c ∈ fp, c.isDigit) :
    matchMult (m ++ 'x' :: ' ' :: (numTokenChars ip fp ++ gigabitLit ++ rest)) =
      some (some (digitsToNat m), numValue ip fp) := by
  obtain ⟨d, ds, rfl⟩ : ∃ d ds, m = d :: ds := by
    cases m with
    | nil => exact absurd rfl hm
    | cons d ds => exact ⟨d, ds, rfl⟩
  have hspan : spanDigits ((d :: ds) ++ 'x' :: ' ' :: (numTokenChars ip fp ++ gigabitLit ++ rest)) =
      (d :: ds, 'x' :: ' ' :: (numTokenChars ip fp ++ gigabitLit ++ rest)) := by
    refine spanDigits_append _ _ hmd ?_
    intro c hc
    simp only [List.head?, Option.mem_def, Option.some_inj] at hc
    subst hc
    decide
  unfold matchMult
  rw [hspan]
  simp only []
  rw [matchNumGigabit_complete ip fp rest h1 h2 h3]

theorem matchMult_complete_single (ip fp rest : List Char) (h1 : ip ≠ [])
    (h2 : ∀ c ∈ ip, c.isDigit) (h3 : ∀ c ∈ fp, c.isDigit) :
    matchMult (numTokenChars ip fp ++ gigabitLit ++ rest) =
      some (none, numValue ip fp) := by
  have hmng := matchNumGigabit_complete ip fp rest h1 h2 h3
  obtain ⟨d, ds, rfl⟩ : ∃ d ds, ip = d :: ds := by
    cases ip with
    | nil => exact absurd rfl h1
    | cons d ds => exact ⟨d, ds, rfl⟩
  have hhead : (spanDigits (numTokenChars (d :: ds) fp ++ gigabitLit ++ rest)).2.head? ≠
      some 'x' := by
    by_cases hfp : fp = []
    · subst hfp
      have harg : numTokenChars (d :: ds) [] ++ gigabitLit ++ rest =
          (d :: ds) ++ (gigabitLit ++ rest) := by simp [numTokenChars]
      rw [harg, spanDigits_append _ _ h2 ?hb]
      case hb =>
        intro c hc
        rw [gigabit_head] at hc
        simp only [Option.mem_def, Option.some_inj] at hc
        subst hc
        decide
      rw [gigabit_head]
      decide
    · obtain ⟨f, fs, rfl⟩ : ∃ f fs, fp = f :: fs := by
        cases fp with
        | nil => exact absurd rfl hfp
        | cons f fs => exact ⟨f, fs, rfl⟩
      have harg : numTokenChars (d :: ds) (f :: fs) ++ gigabitLit ++ rest =
          (d :: ds) ++ ('.' :: ((f :: fs) ++ (gigabitLit ++ rest))) := by
        simp [numTokenChars]
      rw [harg, spanDigits_append _ _ h2 ?hb2]
      case hb2 =>
        intro c hc
        simp only [List.head?, Option.mem_def, Option.some_inj] at hc
        subst hc
        decide
      simp
  unfold matchMult
  split
  · rename_i heq
    exact absurd (by rw [heq]; rfl) hhead
  · rw [hmng]
    rfl

theorem matchNumGigabit_some {l : List Char} {q : ℚ} (h : matchNumGigabit l = some q) :
    ∃ ip fp rest, ip ≠ [] ∧ (∀ c ∈ ip, c.isDigit) ∧ (∀ c ∈ fp, c.isDigit) ∧
      l = numTokenChars ip fp ++ gigabitLit ++ rest ∧ q = numValue ip fp := by
  unfold matchNumGigabit at h
  split at h
  · exact absurd h (by simp)
  · rename_i d ds r2 heq1
    split at h
    · exact absurd h (by simp)
    · rename_i f fs r3 heq2
      split at h
      · rename_i hpre
        obtain ⟨t, rfl⟩ := exists_of_isPrefixOf hpre
        have hl : (d :: ds) ++ '.' :: r2 = l := by
          have := spanDigits_join l
          rw [heq1] at this
          exact this
        have hr2 : (f :: fs) ++ (gigabitLit ++ t) = r2 := by
          have := spanDigits_join r2
          rw [heq2] at this
          exact this
        have hd : ∀ c ∈ d :: ds, c.isDigit := by
          have := spanDigits_fst_digits l
          rw [heq1] at this
          exact this
        have hf : ∀ c ∈ f :: fs, c.isDigit := by
          have := spanDigits_fst_digits r2
          rw [heq2] at this
          exact this
        refine ⟨d :: ds, f :: fs, t, by simp, hd, hf, ?_, ?_⟩
        · rw [← hl, ← hr2]
          simp [numTokenChars]
        · simp only [Option.some_inj] at h
          exact h.symm
      · exact absurd h (by simp)
  · rename_i d ds r1 hnd heq1
    split at h
    · rename_i hpre
      obtain ⟨t, rfl⟩ := exists_of_isPrefixOf hpre
      have hl : (d :: ds) ++ (gigabitLit ++ t) = l := by
        have := spanDigits_join l
        rw [heq1] at this
        exact this
      have hd : ∀ c ∈ d :: ds, c.isDigit := by
        have := spanDigits_fst_digits l
        rw [heq1] at this
        exact this
      refine ⟨d :: ds, [], t, by simp, hd, by simp, ?_, ?_⟩
      · rw [← hl]
        simp [numTokenChars]
      · simp only [Option.some_inj] at h
        exact h.symm
    · exact absurd h (by simp)

theorem matchUpTo_some {l : List Char} {q : ℚ} (h : matchUpTo l = some q) :
    ∃ ip fp rest, ip ≠ [] ∧ (∀ c ∈ ip, c.isDigit) ∧ (∀ c ∈ fp, c.isDigit) ∧
      l = upToLit ++ (numTokenChars ip fp ++ gigabitLit ++ rest) ∧ q = numValue ip fp := by
  unfold matchUpTo at h
  split at h
  · rename_i hpre
    obtain ⟨t, rfl⟩ := exists_of_isPrefixOf hpre
    have hdrop : (upToLit ++ t).drop 6 = t := by simp [upToLit]
    rw [hdrop] at h
    obtain ⟨ip, fp, rest, hne, hipd, hfpd, rfl, hq⟩ := matchNumGigabit_some h
    exact ⟨ip, fp, rest, hne, hipd, hfpd, rfl, hq⟩
  · exact absurd h (by simp)

theorem matchMult_some {l : List Char} {om : Option ℕ} {q : ℚ}
    (h : matchMult l = some (om, q)) :
    (∃ m ip fp rest, m ≠ [] ∧ (∀ c ∈ m, c.isDigit) ∧ ip ≠ [] ∧ (∀ c ∈ ip, c.isDigit) ∧
        (∀ c ∈ fp, c.isDigit) ∧
        l = m ++ 'x' :: ' ' :: (numTokenChars ip fp ++ gigabitLit ++ rest) ∧
        om = some (digitsToNat m) ∧ q = numValue ip fp) ∨
    (∃ ip fp rest, ip ≠ [] ∧ (∀ c ∈ ip, c.isDigit) ∧ (∀ c ∈ fp, c.isDigit) ∧
        l = numTokenChars ip fp ++ gigabitLit ++ rest ∧ om = none ∧ q = numValue ip fp) := by
  unfold matchMult at h
  split at h
  · rename_i d ds r2 heq1
    split at h
    · rename_i q' hmng
      left
      obtain ⟨ip, fp, rest, hne, hipd, hfpd, rfl, hq⟩ := matchNumGigabit_some hmng
      have hl : (d :: ds) ++ 'x' :: ' ' :: (numTokenChars ip fp ++ gigabitLit ++ rest) = l := by
        have := spanDigits_join l
        rw [heq1] at this
        exact this
      have hd : ∀ c ∈ d :: ds, c.isDigit := by
        have := spanDigits_fst_digits l
        rw [heq1] at this
        exact this
      simp only [Option.some_inj, Prod.mk.injEq] at h
      exact ⟨d :: ds, ip, fp, rest, by simp, hd, hne, hipd, hfpd, hl.symm,
        h.1.symm, by rw [← h.2, hq]⟩
    · exact absurd h (by simp)
  · right
    rw [Option.map_eq_some'] at h
    obtain ⟨q', hmng, hpair⟩ := h
    obtain ⟨ip, fp, rest, hne, hipd, hfpd, rfl, hq⟩ := matchNumGigabit_some hmng
    simp only [Prod.mk.injEq] at hpair
    exact ⟨ip, fp, rest, hne, hipd, hfpd, rfl, hpair.1.symm, by rw [← hpair.2, hq]⟩

/-! ## Reduction lemmas for `InstanceNetworkPerformance.init` -/

theorem init_eq_matchers (s : String) (h1 : s ≠ "Very Low") (h2 : s ≠ "Low")
    (h3 : s ≠ "Low to Moderate") (h4 : s ≠ "Moderate") (h5 : s ≠ "High") :
    InstanceNetworkPerformance.init s =
      match matchUpTo s.data with
      | some q => ⟨s, .UPBOUND, .INVALID, q, 1⟩
      | none =>
        match matchMult s.data with
        | some (some n, q) => ⟨s, .MULTIPLE, .INVALID, q, n⟩
        | some (none, q) => ⟨s, .SINGLE, .INVALID, q, 1⟩
        | none => ⟨s, .UNKNOWN, .INVALID, 0, 1⟩ := by
  unfold InstanceNetworkPerformance.init
  rw [if_neg h1, if_neg h2, if_neg h3, if_neg h4, if_neg h5]

theorem ne_phrase_of_head {s p : String} {c : Char} (hs : s.data.head? = some c)
    (hp : p.data.head? ≠ some c) : s ≠ p :=
  fun he => hp (he ▸ hs)

theorem ne_phrase_of_digit_head {s p : String} {c : Char} (hs : s.data.head? = some c)
    (hc : c.isDigit) (hp : p.data.head?.all (fun d => !d.isDigit) = true) : s ≠ p := by
  intro he
  subst he
  rw [hs] at hp
  simp only [Option.all_some, Bool.not_eq_true'] at hp
  rw [hp] at hc
  exact Bool.noConfusion hc

theorem matchUpTo_none_of_head {l : List Char} {c : Char} {t : List Char}
    (hl : l = c :: t) (hc : ('U' == c) = false) : matchUpTo l = none := by
  subst hl
  unfold matchUpTo
  have hnp : upToLit.isPrefixOf (c :: t) = false := by
    simp only [upToLit, List.isPrefixOf, hc, Bool.false_and]
  simp [hnp]

theorem not_beq_U_of_digit {c : Char} (hc : c.isDigit) : ('U' == c) = false := by
  refine beq_eq_false_iff_ne.2 fun he => ?_
  rw [← he] at hc
  exact absurd hc (by decide)

/-- Claim C1: the network-performance parser is total and classifies its
input by the first matching rule: each of the five qualitative phrases maps
to the FUZZY class with the matching tier and aggregation 1; a string of
shape `"Up to <number> Gigabit…"` maps to UPBOUND with the parsed speed and
aggregation 1; a string of shape `"<N>x <number> Gigabit…"` maps to MULTIPLE
with aggregation `N` and the per-link speed; a string of shape
`"<number> Gigabit…"` without multiplier maps to SINGLE with aggregation 1;
every other string maps to UNKNOWN with speed 0.0 and aggregation 1.
Numbers may be integers or decimals (`NumToken`). Totality — the parser
never fails — holds because `InstanceNetworkPerformance.init` is a total
function. -/
theorem C1_parser_classification (s : String) :
    (s = "Very Low" → InstanceNetworkPerformance.init s =
      ⟨s, .FUZZY, .VERY_LOW, 0, 1⟩) ∧
    (s = "Low" → InstanceNetworkPerformance.init s = ⟨s, .FUZZY, .LOW, 0, 1⟩) ∧
    (s = "Low to Moderate" → InstanceNetworkPerformance.init s =
      ⟨s, .FUZZY, .LOW_TO_MODERATE, 0, 1⟩) ∧
    (s = "Moderate" → InstanceNetworkPerformance.init s =
      ⟨s, .FUZZY, .MODERATE, 0, 1⟩) ∧
    (s = "High" → InstanceNetworkPerformance.init s = ⟨s, .FUZZY, .HIGH, 0, 1⟩) ∧
    (∀ ip fp rest, NumToken ip fp →
      s.data = upToLit ++ numTokenChars ip fp ++ gigabitLit ++ rest →
      InstanceNetworkPerformance.init s = ⟨s, .UPBOUND, .INVALID, numValue ip fp, 1⟩) ∧
    (∀ m ip fp rest, m ≠ [] → (∀ c ∈ m, c.isDigit) → NumToken ip fp →
      s.data = m ++ 'x' :: ' ' :: (numTokenChars ip fp ++ gigabitLit ++ rest) →
      InstanceNetworkPerformance.init s =
        ⟨s, .MULTIPLE, .INVALID, numValue ip fp, digitsToNat m⟩) ∧
    (∀ ip fp rest, NumToken ip fp →
      s.data = numTokenChars ip fp ++ gigabitLit ++ rest →
      InstanceNetworkPerformance.init s = ⟨s, .SINGLE, .INVALID, numValue ip fp, 1⟩) ∧
    (s ≠ "Very Low" → s ≠ "Low" → s ≠ "Low to Moderate" → s ≠ "Moderate" → s ≠ "High" →
      ¬ UpToShape s.data → ¬ MultShape s.data → ¬ SingleShape s.data →
      InstanceNetworkPerformance.init s = ⟨s, .UNKNOWN, .INVALID, 0, 1⟩) := by
  refine ⟨?_, ?_, ?_, ?_, ?_, ?_, ?_, ?_, ?_⟩
  · intro h; subst h; decide
  · intro h; subst h; decide
  · intro h; subst h; decide
  · intro h; subst h; decide
  · intro h; subst h; decide
  · intro ip fp rest hnum hdata
    obtain ⟨hne, hipd, hfpd⟩ := hnum
    have hhead : s.data.head? = some 'U' := by rw [hdata]; rfl
    rw [init_eq_matchers s (ne_phrase_of_head hhead (by decide))
      (ne_phrase_of_head hhead (by decide)) (ne_phrase_of_head hhead (by decide))
      (ne_phrase_of_head hhead (by decide)) (ne_phrase_of_head hhead (by decide))]
    have hup : matchUpTo s.data = some (numValue ip fp) := by
      rw [hdata]
      exact matchUpTo_complete ip fp rest hne hipd hfpd
    rw [hup]
  · intro m ip fp rest hm hmd hnum hdata
    obtain ⟨hne, hipd, hfpd⟩ := hnum
    obtain ⟨c, m', rfl⟩ : ∃ c m', m = c :: m' := by
      cases m with
      | nil => exact absurd rfl hm
      | cons c m' => exact ⟨c, m', rfl⟩
    have hc : c.isDigit := hmd c (by simp)
    have hhead : s.data.head? = some c := by rw [hdata]; rfl
    have hl : s.data = c :: (m' ++ 'x' :: ' ' :: (numTokenChars ip fp ++ gigabitLit ++ rest)) := by
      rw [hdata]; rfl
    rw [init_eq_matchers s (ne_phrase_of_digit_head hhead hc (by decide))
      (ne_phrase_of_digit_head hhead hc (by decide))
      (ne_phrase_of_digit_head hhead hc (by decide))
      (ne_phrase_of_digit_head hhead hc (by decide))
      (ne_phrase_of_digit_head hhead hc (by decide))]
    rw [matchUpTo_none_of_head hl (not_beq_U_of_digit hc)]
    have hmm : matchMult s.data =
        some (some (digitsToNat (c :: m')), numValue ip fp) := by
      rw [hdata]
      exact matchMult_complete_mult _ ip fp rest (by simp) hmd hne hipd hfpd
    rw [hmm]
  · intro ip fp rest hnum hdata
    obtain ⟨hne, hipd, hfpd⟩ := hnum
    obtain ⟨c, ip', rfl⟩ : ∃ c ip', ip = c :: ip' := by
      cases ip with
      | nil => exact absurd rfl hne
      | cons c ip' => exact ⟨c, ip', rfl⟩
    have hc : c.isDigit := hipd c (by simp)
    have hhead : s.data.head? = some c := by rw [hdata]; rfl
    have hl : s.data = c :: (ip' ++ (if fp = [] then [] else '.' :: fp) ++ gigabitLit ++ rest) := by
      rw [hdata]; rfl
    rw [init_eq_matchers s (ne_phrase_of_digit_head hhead hc (by decide))
      (ne_phrase_of_digit_head hhead hc (by decide))
      (ne_phrase_of_digit_head hhead hc (by decide))
      (ne_phrase_of_digit_head hhead hc (by decide))
      (ne_phrase_of_digit_head hhead hc (by decide))]
    rw [matchUpTo_none_of_head hl (not_beq_U_of_digit hc)]
    have hmm : matchMult s.data = some (none, numValue (c :: ip') fp) := by
      rw [hdata]
      exact matchMult_complete_single _ fp rest hne hipd hfpd
    rw [hmm]
  · intro hn1 hn2 hn3 hn4 hn5 hUp hMult hSingle
    rw [init_eq_matchers s hn1 hn2 hn3 hn4 hn5]
    cases hu : matchUpTo s.data with
    | some q =>
      exfalso
      apply hUp
      obtain ⟨ip, fp, rest, hne, hipd, hfpd, hl, _⟩ := matchUpTo_some hu
      exact ⟨ip, fp, rest, ⟨hne, hipd, hfpd⟩, by rw [hl]; simp [List.append_assoc]⟩
    | none =>
      cases hm : matchMult s.data with
      | some pair =>
        exfalso
        obtain ⟨om, q⟩ := pair
        rcases matchMult_some hm with
          ⟨m, ip, fp, rest, hmne, hmd, hne, hipd, hfpd, hl, _, _⟩ |
          ⟨ip, fp, rest, hne, hipd, hfpd, hl, _, _⟩
        · exact hMult ⟨m, ip, fp, rest, hmne, hmd, ⟨hne, hipd, hfpd⟩, hl⟩
        · exact hSingle ⟨ip, fp, rest, ⟨hne, hipd, hfpd⟩, hl⟩
      | none => rfl

theorem numValue_int (ip : List Char) : numValue ip [] = (digitsToNat ip : ℚ) := by
  simp [numValue, digitsToNat]

/-! ## Concrete shape refutation helpers (for closed instances) -/

theorem not_upToShape_of_head {l : List Char} {c : Char}
    (hl : l.head? = some c) (hc : c ≠ 'U') : ¬ UpToShape l := by
  rintro ⟨ip, fp, rest, _, heq⟩
  rw [heq] at hl
  have hU : 'U' = c := by simpa [upToLit] using hl
  exact hc hU.symm

theorem not_multShape_of_head {l : List Char} {c : Char}
    (hl : l.head? = some c) (hc : c.isDigit = false) : ¬ MultShape l := by
  rintro ⟨m, ip, fp, rest, hm, hmd, _, heq⟩
  obtain ⟨d, m', rfl⟩ : ∃ d m', m = d :: m' := by
    cases m with
    | nil => exact absurd rfl hm
    | cons d m' => exact ⟨d, m', rfl⟩
  rw [heq] at hl
  simp only [List.cons_append, List.head?, Option.some_inj] at hl
  rw [← hl] at hc
  rw [hmd d (by simp)] at hc
  exact Bool.noConfusion hc

theorem not_singleShape_of_head {l : List Char} {c : Char}
    (hl : l.head? = some c) (hc : c.isDigit = false) : ¬ SingleShape l := by
  rintro ⟨ip, fp, rest, ⟨hne, hipd, _⟩, heq⟩
  obtain ⟨d, ip', rfl⟩ : ∃ d ip', ip = d :: ip' := by
    cases ip with
    | nil => exact absurd rfl hne
    | cons d ip' => exact ⟨d, ip', rfl⟩
  rw [heq] at hl
  simp only [numTokenChars, List.cons_append, List.append_assoc, List.head?,
    Option.some_inj] at hl
  rw [← hl] at hc
  rw [hipd d (by simp)] at hc
  exact Bool.noConfusion hc

/-- Witness for C1: the classification theorem applied at one concrete input
of each class. -/
theorem C1_parser_classification_witness :
    InstanceNetworkPerformance.init "High" = ⟨"High", .FUZZY, .HIGH, 0, 1⟩ ∧
    InstanceNetworkPerformance.init "Up to 10 Gigabit" =
      ⟨"Up to 10 Gigabit", .UPBOUND, .INVALID, 10, 1⟩ ∧
    InstanceNetworkPerformance.init "3x 25 Gigabit" =
      ⟨"3x 25 Gigabit", .MULTIPLE, .INVALID, 25, 3⟩ ∧
    InstanceNetworkPerformance.init "25 Gigabit" =
      ⟨"25 Gigabit", .SINGLE, .INVALID, 25, 1⟩ ∧
    InstanceNetworkPerformance.init "garbage text" =
      ⟨"garbage text", .UNKNOWN, .INVALID, 0, 1⟩ := by
  refine ⟨(C1_parser_classification "High").2.2.2.2.1 rfl, ?_, ?_, ?_, ?_⟩
  · refine ((C1_parser_classification "Up to 10 Gigabit").2.2.2.2.2.1
      ['1', '0'] [] [] ⟨by simp, by decide, by decide⟩ (by decide)).trans ?_
    rw [numValue_int]
    norm_num [show digitsToNat ['1', '0'] = 10 from by decide]
  · refine ((C1_parser_classification "3x 25 Gigabit").2.2.2.2.2.2.1
      ['3'] ['2', '5'] [] [] (by simp) (by decide) ⟨by simp, by decide, by decide⟩
      (by decide)).trans ?_
    rw [numValue_int]
    norm_num [show digitsToNat ['2', '5'] = 25 from by decide,
      show digitsToNat ['3'] = 3 from by decide]
  · refine ((C1_parser_classification "25 Gigabit").2.2.2.2.2.2.2.1
      ['2', '5'] [] [] ⟨by simp, by decide, by decide⟩ (by decide)).trans ?_
    rw [numValue_int]
    norm_num [show digitsToNat ['2', '5'] = 25 from by decide]
  · exact (C1_parser_classification "garbage text").2.2.2.2.2.2.2.2
      (by decide) (by decide) (by decide) (by decide) (by decide)
      (not_upToShape_of_head (c := 'g') rfl (by decide))
      (not_multShape_of_head (c := 'g') rfl (by decide))
      (not_singleShape_of_head (c := 'g') rfl (by decide))

/-- Claim C6: the numeric-speed accessor and the qualitative-tier accessor
are mutually exclusive: `speed` errors exactly when the performance class is
FUZZY, `performance_fuzzy_value` errors exactly when it is not FUZZY, and in
the non-error case each returns the value stored at parse time. -/
theorem C6_accessor_exclusion (s : String) :
    (((InstanceNetworkPerformance.init s).speed.isOk = false) ↔
      (InstanceNetworkPerformance.init s).performanceType = .FUZZY) ∧
    (((InstanceNetworkPerformance.init s).performance_fuzzy_value.isOk = false) ↔
      (InstanceNetworkPerformance.init s).performanceType ≠ .FUZZY) ∧
    ((InstanceNetworkPerformance.init s).performanceType ≠ .FUZZY →
      (InstanceNetworkPerformance.init s).speed =
        .ok (InstanceNetworkPerformance.init s).speedStored) ∧
    ((InstanceNetworkPerformance.init s).performanceType = .FUZZY →
      (InstanceNetworkPerformance.init s).performance_fuzzy_value =
        .ok (InstanceNetworkPerformance.init s).fuzzyStored) := by
  set p := InstanceNetworkPerformance.init s with hp
  by_cases hf : p.performanceType = .FUZZY <;>
    simp [InstanceNetworkPerformance.speed,
      InstanceNetworkPerformance.performance_fuzzy_value, hf, Except.isOk, Except.toBool]

/-- Witness for C6: the accessors evaluated on one qualitative and one
numeric parse. -/
theorem C6_accessor_exclusion_witness :
    (InstanceNetworkPerformance.init "High").performance_fuzzy_value =
      .ok .HIGH ∧
    (InstanceNetworkPerformance.init "25 Gigabit").speed = .ok 25 := by
  constructor
  · refine ((C6_accessor_exclusion "High").2.2.2 (by decide)).trans ?_
    rw [show (InstanceNetworkPerformance.init "High").fuzzyStored =
      InstanceNetworkFuzzySpeed.HIGH from by decide]
  · refine ((C6_accessor_exclusion "25 Gigabit").2.2.1 (by decide)).trans ?_
    rw [show (InstanceNetworkPerformance.init "25 Gigabit").speedStored =
      numValue ['2', '5'] [] from rfl, numValue_int]
    norm_num [show digitsToNat ['2', '5'] = 25 from by decide]

/-- Claim C7: round-trip — converting the parsed value back to a string
(`__str__`) yields exactly the original input, for every input string. -/
theorem C7_roundtrip (s : String) :
    (InstanceNetworkPerformance.init s).toStr = s := by
  unfold InstanceNetworkPerformance.toStr InstanceNetworkPerformance.init
  repeat' split
  all_goals rfl

/-- Claim C10: the numeric patterns are anchored only at the start of the
input: a string beginning with `"Up to <number> Gigabit"`, with arbitrary
trailing characters `rest`, parses as UPBOUND with the parsed speed; one
beginning with `"<N>x <number> Gigabit"` as MULTIPLE; one beginning with
`"<number> Gigabit"` as SINGLE — trailing text never causes a fall-through
to the UNKNOWN class. -/
theorem C10_start_anchored_only (s : String) :
    (∀ ip fp rest, NumToken ip fp →
      s.data = upToLit ++ numTokenChars ip fp ++ gigabitLit ++ rest →
      (InstanceNetworkPerformance.init s).performanceType = .UPBOUND ∧
      (InstanceNetworkPerformance.init s).speedStored = numValue ip fp ∧
      (InstanceNetworkPerformance.init s).performanceType ≠ .UNKNOWN) ∧
    (∀ m ip fp rest, m ≠ [] → (∀ c ∈ m, c.isDigit) → NumToken ip fp →
      s.data = m ++ 'x' :: ' ' :: (numTokenChars ip fp ++ gigabitLit ++ rest) →
      (InstanceNetworkPerformance.init s).performanceType = .MULTIPLE ∧
      (InstanceNetworkPerformance.init s).speedStored = numValue ip fp ∧
      (InstanceNetworkPerformance.init s).aggregation = digitsToNat m ∧
      (InstanceNetworkPerformance.init s).performanceType ≠ .UNKNOWN) ∧
    (∀ ip fp rest, NumToken ip fp →
      s.data = numTokenChars ip fp ++ gigabitLit ++ rest →
      (InstanceNetworkPerformance.init s).performanceType = .SINGLE ∧
      (InstanceNetworkPerformance.init s).speedStored = numValue ip fp ∧
      (InstanceNetworkPerformance.init s).performanceType ≠ .UNKNOWN) := by
  refine ⟨?_, ?_, ?_⟩
  · intro ip fp rest hnum hdata
    obtain ⟨hne, hipd, hfpd⟩ := hnum
    have hhead : s.data.head? = some 'U' := by rw [hdata]; rfl
    rw [init_eq_matchers s (ne_phrase_of_head hhead (by decide))
      (ne_phrase_of_head hhead (by decide)) (ne_phrase_of_head hhead (by decide))
      (ne_phrase_of_head hhead (by decide)) (ne_phrase_of_head hhead (by decide))]
    rw [show matchUpTo s.data = some (numValue ip fp) from by
      rw [hdata]; exact matchUpTo_complete ip fp rest hne hipd hfpd]
    exact ⟨rfl, rfl, fun h => nomatch h⟩
  · intro m ip fp rest hm hmd hnum hdata
    obtain ⟨hne, hipd, hfpd⟩ := hnum
    obtain ⟨c, m', rfl⟩ : ∃ c m', m = c :: m' := by
      cases m with
      | nil => exact absurd rfl hm
      | cons c m' => exact ⟨c, m', rfl⟩
    have hc : c.isDigit := hmd c (by simp)
    have hhead : s.data.head? = some c := by rw [hdata]; rfl
    have hl : s.data = c :: (m' ++ 'x' :: ' ' :: (numTokenChars ip fp ++ gigabitLit ++ rest)) := by
      rw [hdata]; rfl
    rw [init_eq_matchers s (ne_phrase_of_digit_head hhead hc (by decide))
      (ne_phrase_of_digit_head hhead hc (by decide))
      (ne_phrase_of_digit_head hhead hc (by decide))
      (ne_phrase_of_digit_head hhead hc (by decide))
      (ne_phrase_of_digit_head hhead hc (by decide))]
    rw [matchUpTo_none_of_head hl (not_beq_U_of_digit hc)]
    rw [show matchMult s.data = some (some (digitsToNat (c :: m')), numValue ip fp) from by
      rw [hdata]; exact matchMult_complete_mult _ ip fp rest (by simp) hmd hne hipd hfpd]
    exact ⟨rfl, rfl, rfl, fun h => nomatch h⟩
  · intro ip fp rest hnum hdata
    obtain ⟨hne, hipd, hfpd⟩ := hnum
    obtain ⟨c, ip', rfl⟩ : ∃ c ip', ip = c :: ip' := by
      cases ip with
      | nil => exact absurd rfl hne
      | cons c ip' => exact ⟨c, ip', rfl⟩
    have hc : c.isDigit := hipd c (by simp)
    have hhead : s.data.head? = some c := by rw [hdata]; rfl
    have hl : s.data = c :: (ip' ++ (if fp = [] then [] else '.' :: fp) ++ gigabitLit ++ rest) := by
      rw [hdata]; rfl
    rw [init_eq_matchers s (ne_phrase_of_digit_head hhead hc (by decide))
      (ne_phrase_of_digit_head hhead hc (by decide))
      (ne_phrase_of_digit_head hhead hc (by decide))
      (ne_phrase_of_digit_head hhead hc (by decide))
      (ne_phrase_of_digit_head hhead hc (by decide))]
    rw [matchUpTo_none_of_head hl (not_beq_U_of_digit hc)]
    rw [show matchMult s.data = some (none, numValue (c :: ip') fp) from by
      rw [hdata]; exact matchMult_complete_single _ fp rest hne hipd hfpd]
    exact ⟨rfl, rfl, fun h => nomatch h⟩

/-- Witness for C10: trailing text after each pattern, including a
non-numeric suffix. -/
theorem C10_start_anchored_only_witness :
    (InstanceNetworkPerformance.init "Up to 10 Gigabit here").performanceType =
      .UPBOUND ∧
    (InstanceNetworkPerformance.init "3x 25 Gigabits!").performanceType =
      .MULTIPLE ∧
    (InstanceNetworkPerformance.init "25 Gigabit or so").performanceType =
      .SINGLE := by
  refine ⟨?_, ?_, ?_⟩
  · exact ((C10_start_anchored_only "Up to 10 Gigabit here").1
      ['1', '0'] [] (' ' :: 'h' :: 'e' :: 'r' :: 'e' :: [])
      ⟨by simp, by decide, by decide⟩ (by decide)).1
  · exact ((C10_start_anchored_only "3x 25 Gigabits!").2.1
      ['3'] ['2', '5'] [] ('s' :: '!' :: [])
      (by simp) (by decide) ⟨by simp, by decide, by decide⟩ (by decide)).1
  · exact ((C10_start_anchored_only "25 Gigabit or so").2.2
      ['2', '5'] [] (' ' :: 'o' :: 'r' :: ' ' :: 's' :: 'o' :: [])
      ⟨by simp, by decide, by decide⟩ (by decide)).1

/-! ## `Except` plumbing lemmas -/

theorem except_bind_ok {α β : Type} {x : Except String α} {f : α → Except String β}
    {b : β} (h : x >>= f = .ok b) : ∃ a, x = .ok a ∧ f a = .ok b := by
  cases x with
  | error e => simp [Bind.bind, Except.bind] at h
  | ok a => exact ⟨a, rfl, by simpa [Bind.bind, Except.bind] using h⟩

theorem except_ok_bind {α β : Type} (a : α) (f : α → Except String β) :
    (Except.ok a >>= f) = f a := rfl

theorem except_error_bind {α β : Type} (e : String) (f : α → Except String β) :
    ((Except.error e : Except String α) >>= f) = .error e := rfl

theorem mapM_error_of_mem {α β : Type} {l : List α} {f : α → Except String β} {x : α}
    (hx : x ∈ l) (hf : ∀ b, f x ≠ .ok b) : ∃ e, l.mapM f = .error e := by
  induction l with
  | nil => simp at hx
  | cons a as ih =>
    rcases List.mem_cons.1 hx with rfl | hx'
    · cases hfa : f x with
      | error e => exact ⟨e, by rw [List.mapM_cons, hfa, except_error_bind]⟩
      | ok b => exact absurd hfa (hf b)
    · cases hfa : f a with
      | error e => exact ⟨e, by rw [List.mapM_cons, hfa, except_error_bind]⟩
      | ok b =>
        obtain ⟨e, he⟩ := ih hx'
        refine ⟨e, ?_⟩
        rw [List.mapM_cons, hfa, except_ok_bind, he, except_error_bind]

/-- Decomposition of a successful `InstanceType.init` into its five fallible
coercion steps and the final assembly. -/
theorem init_ok_elim {r : RawInstanceType} {it : InstanceType}
    (h : InstanceType.init r = .ok it) :
    ∃ a d e n p,
      ((r.ProcessorInfo.getD {}).SupportedArchitectures.getD []).mapM
        CpuArchitectures.fromString = .ok a ∧
      disksInit r = .ok d ∧
      EbsOptimizeSupportStatus.fromString
        ((r.EbsInfo.getD {}).EbsOptimizedSupport.getD "unsupported") = .ok e ∧
      EnaSupport.fromString ((r.NetworkInfo.getD {}).EnaSupport.getD "unsupported") =
        .ok n ∧
      ((r.PlacementGroupInfo.getD {}).SupportedStrategies.getD []).mapM
        PlacementStrategy.fromString = .ok p ∧
      it = InstanceType.assemble r a d e n p := by
  unfold InstanceType.init at h
  obtain ⟨a, ha, h⟩ := except_bind_ok h
  obtain ⟨d, hd, h⟩ := except_bind_ok h
  obtain ⟨e, he, h⟩ := except_bind_ok h
  obtain ⟨n, hn, h⟩ := except_bind_ok h
  obtain ⟨p, hp, h⟩ := except_bind_ok h
  refine ⟨a, d, e, n, p, ha, hd, he, hn, hp, ?_⟩
  simpa [pure, Except.pure] using h.symm

/-- Claim C3: every field absent from the raw record takes exactly its
documented default in the mapped `InstanceType`: name `"t1.micro"`,
current-generation `true`, vCPUs/cores/threads-per-core `1`, memory `0`,
EBS-optimize and ENA support "not supported", max network interfaces/cards
`1`, IPv6 addresses per interface `1` if IPv6 is supported else `0`, EFA max
interfaces `1` if EFA is supported else `0`; and a record without the
`NetworkInfo`/`GpuInfo`/`FpgaInfo`/`InferenceAcceleratorInfo`/
`InstanceStorageInfo` keys (and, for the vCPU and memory conclusions, without
`VCpuInfo`/`MemoryInfo`) maps to no GPU/FPGA/accelerator support, zero
instance-store size, vCPU/core/thread counts of 1, and memory 0. -/
theorem C3_absent_field_defaults (r : RawInstanceType) (it : InstanceType)
    (h : InstanceType.init r = .ok it) :
    (r.InstanceType = none → it.name = "t1.micro") ∧
    (r.CurrentGeneration = none → it.is_current = true) ∧
    ((r.VCpuInfo.getD {}).DefaultVCpus = none → it.default_vcpus = 1) ∧
    ((r.VCpuInfo.getD {}).DefaultCores = none → it.default_cores = 1) ∧
    ((r.VCpuInfo.getD {}).DefaultThreadsPerCore = none →
      it.default_threads_per_core = 1) ∧
    ((r.MemoryInfo.getD {}).SizeInMiB = none → it.memory_size = 0) ∧
    ((r.EbsInfo.getD {}).EbsOptimizedSupport = none →
      it.support_ebs_optimize = .NOT_SUPPORTED) ∧
    ((r.NetworkInfo.getD {}).EnaSupport = none → it.ena_support = .NOT_SUPPORTED) ∧
    ((r.NetworkInfo.getD {}).MaximumNetworkInterfaces = none →
      it.max_net_interface = 1) ∧
    ((r.NetworkInfo.getD {}).MaximumNetworkCards = none → it.max_net_cards = 1) ∧
    ((r.NetworkInfo.getD {}).Ipv6AddressesPerInterface = none →
      it.ipv6_addr_per_interface = if it.support_ipv6 then 1 else 0) ∧
    (((r.NetworkInfo.getD {}).EfaInfo.getD {}).MaximumEfaInterfaces = none →
      it.max_efa_interfaces = if it.efa_supported then 1 else 0) ∧
    (r.VCpuInfo = none → it.default_vcpus = 1 ∧ it.default_cores = 1 ∧
      it.default_threads_per_core = 1) ∧
    (r.MemoryInfo = none → it.memory_size = 0) ∧
    (r.NetworkInfo = none ∧ r.GpuInfo = none ∧ r.FpgaInfo = none ∧
      r.InferenceAcceleratorInfo = none ∧ r.InstanceStorageInfo = none →
      it.gpu_support = false ∧ it.gpus = [] ∧ it.total_gpu_memory = 0 ∧
      it.fpga_support = false ∧ it.fpgas = [] ∧ it.total_fpga_memory = 0 ∧
      it.interface_accelerator_support = false ∧
      it.total_instance_store_size = 0) := by
  obtain ⟨a, d, e, n, p, ha, hd, he, hn, hp, hit⟩ := init_ok_elim h
  subst hit
  refine ⟨?_, ?_, ?_, ?_, ?_, ?_, ?_, ?_, ?_, ?_, ?_, ?_, ?_, ?_, ?_⟩
  · intro habs
    show r.InstanceType.getD "t1.micro" = "t1.micro"
    rw [habs]
    rfl
  · intro habs
    show r.CurrentGeneration.getD true = true
    rw [habs]
    rfl
  · intro habs
    show (r.VCpuInfo.getD {}).DefaultVCpus.getD 1 = 1
    rw [habs]
    rfl
  · intro habs
    show (r.VCpuInfo.getD {}).DefaultCores.getD 1 = 1
    rw [habs]
    rfl
  · intro habs
    show (r.VCpuInfo.getD {}).DefaultThreadsPerCore.getD 1 = 1
    rw [habs]
    rfl
  · intro habs
    show (r.MemoryInfo.getD {}).SizeInMiB.getD 0 = 0
    rw [habs]
    rfl
  · intro habs
    rw [habs] at he
    have he' : EbsOptimizeSupportStatus.NOT_SUPPORTED = e := Except.ok.inj he
    show e = .NOT_SUPPORTED
    exact he'.symm
  · intro habs
    rw [habs] at hn
    have hn' : EnaSupport.NOT_SUPPORTED = n := Except.ok.inj hn
    show n = .NOT_SUPPORTED
    exact hn'.symm
  · intro habs
    show (r.NetworkInfo.getD {}).MaximumNetworkInterfaces.getD 1 = 1
    rw [habs]
    rfl
  · intro habs
    show (r.NetworkInfo.getD {}).MaximumNetworkCards.getD 1 = 1
    rw [habs]
    rfl
  · intro habs
    show (r.NetworkInfo.getD {}).Ipv6AddressesPerInterface.getD
      (if (r.NetworkInfo.getD {}).Ipv6Supported.getD false then 1 else 0) =
      if (r.NetworkInfo.getD {}).Ipv6Supported.getD false then 1 else 0
    rw [habs]
    rfl
  · intro habs
    show ((r.NetworkInfo.getD {}).EfaInfo.getD {}).MaximumEfaInterfaces.getD
      (if (r.NetworkInfo.getD {}).EfaSupported.getD false then 1 else 0) =
      if (r.NetworkInfo.getD {}).EfaSupported.getD false then 1 else 0
    rw [habs]
    rfl
  · intro habs
    refine ⟨?_, ?_, ?_⟩
    · show (r.VCpuInfo.getD {}).DefaultVCpus.getD 1 = 1
      rw [habs]
      rfl
    · show (r.VCpuInfo.getD {}).DefaultCores.getD 1 = 1
      rw [habs]
      rfl
    · show (r.VCpuInfo.getD {}).DefaultThreadsPerCore.getD 1 = 1
      rw [habs]
      rfl
  · intro habs
    show (r.MemoryInfo.getD {}).SizeInMiB.getD 0 = 0
    rw [habs]
    rfl
  · rintro ⟨-, hgpu, hfpga, haccel, hstore⟩
    refine ⟨?_, ?_, ?_, ?_, ?_, ?_, ?_, ?_⟩
    · show r.GpuInfo.isSome = false
      rw [hgpu]
      rfl
    · show (if r.GpuInfo.isSome then _ else []) = []
      rw [hgpu]
      rfl
    · show (if r.GpuInfo.isSome then (r.GpuInfo.getD {}).TotalGpuMemoryInMiB.getD 0
        else 0) = 0
      rw [hgpu]
      rfl
    · show r.FpgaInfo.isSome = false
      rw [hfpga]
      rfl
    · show (if r.FpgaInfo.isSome then _ else []) = []
      rw [hfpga]
      rfl
    · show (if r.FpgaInfo.isSome then (r.FpgaInfo.getD {}).TotalFpgaMemoryInMiB.getD 0
        else 0) = 0
      rw [hfpga]
      rfl
    · show r.InferenceAcceleratorInfo.isSome = false
      rw [haccel]
      rfl
    · show (if r.InstanceStorageSupported.getD false then
        (r.InstanceStorageInfo.getD {}).TotalSizeInGB.getD 0 else 0) = 0
      rw [hstore]
      split <;> rfl

/-- Witness for C3: the defaults theorem applied to the empty raw record. -/
theorem C3_absent_field_defaults_witness :
    ∃ it, InstanceType.init {} = .ok it ∧ it.name = "t1.micro" ∧
      it.is_current = true ∧ it.default_vcpus = 1 ∧ it.default_cores = 1 ∧
      it.default_threads_per_core = 1 ∧ it.memory_size = 0 ∧
      it.support_ebs_optimize = .NOT_SUPPORTED ∧ it.ena_support = .NOT_SUPPORTED ∧
      it.max_net_interface = 1 ∧ it.max_net_cards = 1 ∧
      it.ipv6_addr_per_interface = 0 ∧ it.max_efa_interfaces = 0 ∧
      it.gpu_support = false ∧ it.fpga_support = false ∧
      it.interface_accelerator_support = false ∧
      it.total_instance_store_size = 0 := by
  have h : InstanceType.init {} =
      .ok (InstanceType.assemble {} [] [] .NOT_SUPPORTED .NOT_SUPPORTED []) := rfl
  obtain ⟨c1, c2, c3, c4, c5, c6, c7, c8, c9, c10, c11, c12, c13, c14, c15⟩ :=
    C3_absent_field_defaults {} _ h
  obtain ⟨g1, g2, g3, g4, g5, g6, g7, g8⟩ := c15 ⟨rfl, rfl, rfl, rfl, rfl⟩
  exact ⟨_, h, c1 rfl, c2 rfl, c3 rfl, c4 rfl, c5 rfl, c6 rfl, c7 rfl, c8 rfl,
    c9 rfl, c10 rfl, (c11 rfl).trans rfl, (c12 rfl).trans rfl, g1, g4, g7, g8⟩

/-! ## Out-of-set enum values make the coercions fail -/

theorem cpuArchFromString_not_ok {s : String}
    (hs : s ∉ ["arm64", "arm64_mac", "i386", "x86_64", "x86_64_mac"]) :
    ∀ v, CpuArchitectures.fromString s ≠ .ok v := by
  intro v h
  unfold CpuArchitectures.fromString at h
  split at h <;> simp_all

theorem storageTypeFromString_not_ok {s : String}
    (hs : s ∉ ["ssd", "hdd"]) : ∀ v, InstanceStorageType.fromString s ≠ .ok v := by
  intro v h
  unfold InstanceStorageType.fromString at h
  split at h <;> simp_all

theorem ebsOptFromString_not_ok {s : String}
    (hs : s ∉ ["default", "supported", "unsupported"]) :
    ∀ v, EbsOptimizeSupportStatus.fromString s ≠ .ok v := by
  intro v h
  unfold EbsOptimizeSupportStatus.fromString at h
  split at h <;> simp_all

theorem enaFromString_not_ok {s : String}
    (hs : s ∉ ["required", "supported", "unsupported"]) :
    ∀ v, EnaSupport.fromString s ≠ .ok v := by
  intro v h
  unfold EnaSupport.fromString at h
  split at h <;> simp_all

theorem placementFromString_not_ok {s : String}
    (hs : s ∉ ["cluster", "partition", "spread"]) :
    ∀ v, PlacementStrategy.fromString s ≠ .ok v := by
  intro v h
  unfold PlacementStrategy.fromString at h
  split at h <;> simp_all

theorem zoneTypeFromString_not_ok {s : String}
    (hs : s ∉ ["availability-zone", "local-zone", "wavelength-zone"]) :
    ∀ v, ZoneType.fromString s ≠ .ok v := by
  intro v h
  unfold ZoneType.fromString at h
  split at h <;> simp_all

theorem diskInit_not_ok {dk : RawDisk}
    (hs : dk.DiskType.getD "ssd" ∉ ["ssd", "hdd"]) : ∀ b, diskInit dk ≠ .ok b := by
  intro b h
  unfold diskInit at h
  cases hfs : InstanceStorageType.fromString (dk.DiskType.getD "ssd") with
  | error e =>
    rw [hfs, except_error_bind] at h
    exact Except.noConfusion h
  | ok t => exact storageTypeFromString_not_ok hs t hfs

theorem zoneInit_not_ok {az : RawAvailabilityZone}
    (hs : az.ZoneType ∉ ["availability-zone", "local-zone", "wavelength-zone"]) :
    ∀ b, zoneInit az ≠ .ok b := by
  intro b h
  unfold zoneInit at h
  cases hfs : ZoneType.fromString az.ZoneType with
  | error e =>
    rw [hfs, except_error_bind] at h
    exact Except.noConfusion h
  | ok t => exact zoneTypeFromString_not_ok hs t hfs

/-- Raw record refuting C2 as stated: the instance-store disk-type field
holds `"weird"`, outside the closed set `{"ssd", "hdd"}`, but because
`InstanceStorageSupported` is not truthy the disk branch — and with it the
disk-type coercion — never runs, and construction succeeds. -/
def cexC2 : RawInstanceType :=
  { InstanceStorageInfo := some { Disks := some [{ DiskType := some "weird" }] } }

/-- Counterexample to C2 as stated: `cexC2` contains the enumerated
disk-type value `"weird"` outside the closed set, yet construction of the
domain object succeeds. -/
theorem C2_counterexample :
    (∃ dk ∈ (cexC2.InstanceStorageInfo.getD {}).Disks.getD [],
      dk.DiskType.getD "ssd" = "weird" ∧ "weird" ∉ ["ssd", "hdd"]) ∧
    ∃ it, InstanceType.init cexC2 = .ok it := by
  constructor
  · exact ⟨{ DiskType := some "weird" }, by simp [cexC2], rfl, by simp⟩
  · exact ⟨_, rfl⟩

/-- Claim C2, amended: an out-of-set string for an enumerated field that the
mapper actually reads is a hard construction error — unconditionally for CPU
architectures, the EBS-optimize tier, the ENA tier, placement strategies and
the availability-zone type, and for instance-store disk types whenever
`InstanceStorageSupported` is truthy (when that flag is falsy the disk list
is never read, so an out-of-set disk type there goes unnoticed); a failed
construction never returns a partial record. -/
theorem C2_enum_validation (r : RawInstanceType) (zones : List RawAvailabilityZone) :
    ((∃ s ∈ (r.ProcessorInfo.getD {}).SupportedArchitectures.getD [],
        s ∉ ["arm64", "arm64_mac", "i386", "x86_64", "x86_64_mac"]) →
      ∃ e, InstanceType.init r = .error e) ∧
    (r.InstanceStorageSupported.getD false = true →
      (∃ dk ∈ (r.InstanceStorageInfo.getD {}).Disks.getD [],
        dk.DiskType.getD "ssd" ∉ ["ssd", "hdd"]) →
      ∃ e, InstanceType.init r = .error e) ∧
    ((r.EbsInfo.getD {}).EbsOptimizedSupport.getD "unsupported" ∉
        ["default", "supported", "unsupported"] →
      ∃ e, InstanceType.init r = .error e) ∧
    ((r.NetworkInfo.getD {}).EnaSupport.getD "unsupported" ∉
        ["required", "supported", "unsupported"] →
      ∃ e, InstanceType.init r = .error e) ∧
    ((∃ s ∈ (r.PlacementGroupInfo.getD {}).SupportedStrategies.getD [],
        s ∉ ["cluster", "partition", "spread"]) →
      ∃ e, InstanceType.init r = .error e) ∧
    ((∃ az ∈ zones,
        az.ZoneType ∉ ["availability-zone", "local-zone", "wavelength-zone"]) →
      ∃ e, get_zones zones = .error e) := by
  refine ⟨?_, ?_, ?_, ?_, ?_, ?_⟩
  · rintro ⟨s, hmem, hbad⟩
    cases hinit : InstanceType.init r with
    | error e => exact ⟨e, rfl⟩
    | ok it =>
      obtain ⟨a, d, e, n, p, ha, -, -, -, -, -⟩ := init_ok_elim hinit
      obtain ⟨e', he'⟩ :=
        mapM_error_of_mem hmem (cpuArchFromString_not_ok hbad)
      exact absurd (ha.symm.trans he') (fun hx => Except.noConfusion hx)
  · rintro hflag ⟨dk, hmem, hbad⟩
    cases hinit : InstanceType.init r with
    | error e => exact ⟨e, rfl⟩
    | ok it =>
      obtain ⟨a, d, e, n, p, -, hd, -, -, -, -⟩ := init_ok_elim hinit
      unfold disksInit at hd
      rw [hflag] at hd
      simp only [if_true] at hd
      obtain ⟨e', he'⟩ := mapM_error_of_mem hmem (diskInit_not_ok hbad)
      exact absurd (hd.symm.trans he') (fun hx => Except.noConfusion hx)
  · intro hbad
    cases hinit : InstanceType.init r with
    | error e => exact ⟨e, rfl⟩
    | ok it =>
      obtain ⟨a, d, e, n, p, -, -, he, -, -, -⟩ := init_ok_elim hinit
      exact absurd he (ebsOptFromString_not_ok hbad e)
  · intro hbad
    cases hinit : InstanceType.init r with
    | error e => exact ⟨e, rfl⟩
    | ok it =>
      obtain ⟨a, d, e, n, p, -, -, -, hn, -, -⟩ := init_ok_elim hinit
      exact absurd hn (enaFromString_not_ok hbad n)
  · rintro ⟨s, hmem, hbad⟩
    cases hinit : InstanceType.init r with
    | error e => exact ⟨e, rfl⟩
    | ok it =>
      obtain ⟨a, d, e, n, p, -, -, -, -, hp, -⟩ := init_ok_elim hinit
      obtain ⟨e', he'⟩ :=
        mapM_error_of_mem hmem (placementFromString_not_ok hbad)
      exact absurd (hp.symm.trans he') (fun hx => Except.noConfusion hx)
  · rintro ⟨az, hmem, hbad⟩
    cases hz : get_zones zones with
    | error e => exact ⟨e, rfl⟩
    | ok out =>
      obtain ⟨e', he'⟩ := mapM_error_of_mem hmem (zoneInit_not_ok hbad)
      unfold get_zones at hz
      exact absurd (hz.symm.trans he') (fun hx => Except.noConfusion hx)

/-- Witness for C2 (amended): one record per failing field, each with a
construction that indeed errors. -/
theorem C2_enum_validation_witness :
    (∃ e, InstanceType.init
      { ProcessorInfo := some { SupportedArchitectures := some ["sparc"] } } =
      .error e) ∧
    (∃ e, InstanceType.init
      { InstanceStorageSupported := some true,
        InstanceStorageInfo := some { Disks := some [{ DiskType := some "weird" }] } } =
      .error e) ∧
    (∃ e, InstanceType.init
      { EbsInfo := some { EbsOptimizedSupport := some "sometimes" } } = .error e) ∧
    (∃ e, InstanceType.init
      { NetworkInfo := some { EnaSupport := some "maybe" } } = .error e) ∧
    (∃ e, InstanceType.init
      { PlacementGroupInfo := some { SupportedStrategies := some ["diagonal"] } } =
      .error e) ∧
    (∃ e, get_zones [{ ZoneName := "z", ZoneId := "z1", ZoneType := "moon-zone" }] =
      .error e) := by
  refine ⟨?_, ?_, ?_, ?_, ?_, ?_⟩
  · exact (C2_enum_validation _ []).1 ⟨"sparc", by simp, by simp⟩
  · exact (C2_enum_validation _ []).2.1 rfl ⟨{ DiskType := some "weird" }, by simp, by simp⟩
  · exact (C2_enum_validation _ []).2.2.1 (by simp)
  · exact (C2_enum_validation _ []).2.2.2.1 (by simp)
  · exact (C2_enum_validation _ []).2.2.2.2.1 ⟨"diagonal", by simp, by simp⟩
  · exact (C2_enum_validation {} _).2.2.2.2.2
      ⟨{ ZoneName := "z", ZoneId := "z1", ZoneType := "moon-zone" }, by simp, by simp⟩

/-- Raw record refuting C4 as stated: the `InstanceStorageInfo` parent key is
present (with a 100 GB total), but the gating flag `InstanceStorageSupported`
is absent, so the dependent fields are not populated from the raw data; and
with `InferenceAcceleratorInfo` absent the accelerator-list attribute is left
unset rather than defaulted. -/
def cexC4 : RawInstanceType :=
  { InstanceStorageInfo := some { TotalSizeInGB := some 100 } }

/-- Counterexample to C4 as stated: in `cexC4` the instance-storage parent
key is present yet the mapped total size is 0, not 100; and the
accelerator-list field is unset (`none`), not defaulted. -/
theorem C4_counterexample :
    cexC4.InstanceStorageInfo = some { TotalSizeInGB := some 100 } ∧
    ∃ it, InstanceType.init cexC4 = .ok it ∧
      it.total_instance_store_size = 0 ∧ it.interface_accelerators = none := by
  exact ⟨rfl, _, rfl, rfl, rfl⟩

/-- Claim C4, amended: the GPU, FPGA and inference-accelerator sub-structures
are populated exactly when their parent key is present (with the accelerator
list left entirely unset — not defaulted — when absent); the instance-storage
fields are gated by the `InstanceStorageSupported` flag, not by the presence
of the `InstanceStorageInfo` key; and the EBS-optimize detail fields are
gated by the coerced EBS-optimize tier being other than "not supported", not
by the presence of the `EbsOptimizedInfo` key. In every non-populated case
the dependent fields hold their "no support" defaults, except the
accelerator list, which is unset. -/
theorem C4_conditional_substructures (r : RawInstanceType) (it : InstanceType)
    (h : InstanceType.init r = .ok it) :
    (r.GpuInfo = none →
      it.gpu_support = false ∧ it.gpus = [] ∧ it.total_gpu_memory = 0) ∧
    (∀ gi, r.GpuInfo = some gi →
      it.gpu_support = true ∧
      it.gpus = (gi.Gpus.getD []).map (fun g =>
        ⟨g.Name.getD "", g.Manufacturer.getD "", g.Count.getD 1,
          (g.MemoryInfo.getD {}).SizeInMiB.getD 0⟩) ∧
      it.total_gpu_memory = gi.TotalGpuMemoryInMiB.getD 0) ∧
    (r.FpgaInfo = none →
      it.fpga_support = false ∧ it.fpgas = [] ∧ it.total_fpga_memory = 0) ∧
    (∀ fi, r.FpgaInfo = some fi →
      it.fpga_support = true ∧
      it.fpgas = (fi.Fpgas.getD []).map (fun b =>
        ⟨b.Name.getD "", b.Manufacturer.getD "", b.Count.getD 1,
          (b.MemoryInfo.getD {}).SizeInMiB.getD 0⟩) ∧
      it.total_fpga_memory = fi.TotalFpgaMemoryInMiB.getD 0) ∧
    (r.InferenceAcceleratorInfo = none →
      it.interface_accelerator_support = false ∧ it.interface_accelerators = none) ∧
    (∀ ai, r.InferenceAcceleratorInfo = some ai →
      it.interface_accelerator_support = true ∧
      it.interface_accelerators = some ((ai.Accelerators.getD []).map (fun x =>
        ⟨x.Name.getD "", x.Manufacturer.getD "", x.Count.getD 1⟩))) ∧
    (r.InstanceStorageSupported.getD false = false →
      it.total_instance_store_size = 0 ∧ it.instance_store_disks = [] ∧
      it.instance_store_encryption = false) ∧
    (r.InstanceStorageSupported.getD false = true →
      it.total_instance_store_size =
        (r.InstanceStorageInfo.getD {}).TotalSizeInGB.getD 0 ∧
      ((r.InstanceStorageInfo.getD {}).Disks.getD []).mapM diskInit =
        .ok it.instance_store_disks ∧
      it.instance_store_encryption =
        decide ((r.InstanceStorageInfo.getD {}).EncryptionSupport = some "required")) ∧
    (it.support_ebs_optimize = .NOT_SUPPORTED →
      it.ebs_optimize_base_band = 0 ∧ it.ebs_optimize_base_throughput = 0 ∧
      it.ebs_optimize_base_iops = 0 ∧ it.ebs_optimize_max_band = 0 ∧
      it.ebs_optimize_max_throughput = 0 ∧ it.ebs_optimize_max_iops = 0) ∧
    (it.support_ebs_optimize ≠ .NOT_SUPPORTED →
      it.ebs_optimize_base_band =
        ((r.EbsInfo.getD {}).EbsOptimizedInfo.getD {}).BaselineBandwidthInMbps.getD 0 ∧
      it.ebs_optimize_base_throughput =
        ((r.EbsInfo.getD {}).EbsOptimizedInfo.getD {}).BaselineThroughputInMBps.getD 0 ∧
      it.ebs_optimize_base_iops =
        ((r.EbsInfo.getD {}).EbsOptimizedInfo.getD {}).BaselineIops.getD 0 ∧
      it.ebs_optimize_max_band =
        ((r.EbsInfo.getD {}).EbsOptimizedInfo.getD {}).MaximumBandwidthInMbps.getD 0 ∧
      it.ebs_optimize_max_throughput =
        ((r.EbsInfo.getD {}).EbsOptimizedInfo.getD {}).MaximumThroughputInMBps.getD 0 ∧
      it.ebs_optimize_max_iops =
        ((r.EbsInfo.getD {}).EbsOptimizedInfo.getD {}).MaximumIops.getD 0) := by
  obtain ⟨a, d, e, n, p, ha, hd, he, hn, hp, hit⟩ := init_ok_elim h
  subst hit
  refine ⟨?_, ?_, ?_, ?_, ?_, ?_, ?_, ?_, ?_, ?_⟩
  · intro hgi
    refine ⟨?_, ?_, ?_⟩ <;> simp [InstanceType.assemble, hgi]
  · intro gi hgi
    refine ⟨?_, ?_, ?_⟩ <;> simp [InstanceType.assemble, hgi]
  · intro hfi
    refine ⟨?_, ?_, ?_⟩ <;> simp [InstanceType.assemble, hfi]
  · intro fi hfi
    refine ⟨?_, ?_, ?_⟩ <;> simp [InstanceType.assemble, hfi]
  · intro hai
    refine ⟨?_, ?_⟩ <;> simp [InstanceType.assemble, hai]
  · intro ai hai
    refine ⟨?_, ?_⟩ <;> simp [InstanceType.assemble, hai]
  · intro hflag
    refine ⟨?_, ?_, ?_⟩
    · show (if r.InstanceStorageSupported.getD false = true then
        (r.InstanceStorageInfo.getD {}).TotalSizeInGB.getD 0 else 0) = 0
      rw [hflag]
      rfl
    · show d = []
      unfold disksInit at hd
      rw [hflag] at hd
      simpa [pure, Except.pure] using hd.symm
    · show (if r.InstanceStorageSupported.getD false = true then
        decide ((r.InstanceStorageInfo.getD {}).EncryptionSupport = some "required")
        else false) = false
      rw [hflag]
      rfl
  · intro hflag
    refine ⟨?_, ?_, ?_⟩
    · show (if r.InstanceStorageSupported.getD false = true then
        (r.InstanceStorageInfo.getD {}).TotalSizeInGB.getD 0 else 0) =
        (r.InstanceStorageInfo.getD {}).TotalSizeInGB.getD 0
      rw [hflag]
      rfl
    · unfold disksInit at hd
      rw [hflag] at hd
      simpa using hd
    · show (if r.InstanceStorageSupported.getD false = true then
        decide ((r.InstanceStorageInfo.getD {}).EncryptionSupport = some "required")
        else false) =
        decide ((r.InstanceStorageInfo.getD {}).EncryptionSupport = some "required")
      rw [hflag]
      rfl
  · intro hcond
    replace hcond : e = .NOT_SUPPORTED := hcond
    subst hcond
    refine ⟨?_, ?_, ?_, ?_, ?_, ?_⟩ <;> simp [InstanceType.assemble]
  · intro hcond
    replace hcond : e ≠ .NOT_SUPPORTED := hcond
    refine ⟨?_, ?_, ?_, ?_, ?_, ?_⟩ <;> simp [InstanceType.assemble, hcond]

/-- Raw record for the C4 witness: GPU info and EBS-optimize detail present. -/
def rC4w : RawInstanceType :=
  { GpuInfo := some { TotalGpuMemoryInMiB := some 2048 },
    EbsInfo := some { EbsOptimizedSupport := some "default",
                      EbsOptimizedInfo := some { BaselineIops := some 4000 } } }

/-- Witness for C4 (amended): populated and non-populated cases at concrete
records. -/
theorem C4_conditional_substructures_witness :
    (∃ it, InstanceType.init rC4w = .ok it ∧ it.gpu_support = true ∧
      it.total_gpu_memory = 2048 ∧ it.ebs_optimize_base_iops = 4000) ∧
    (∃ it, InstanceType.init {} = .ok it ∧ it.gpu_support = false ∧
      it.interface_accelerators = none ∧ it.ebs_optimize_base_iops = 0 ∧
      it.total_instance_store_size = 0) := by
  constructor
  · have h : InstanceType.init rC4w =
        .ok (InstanceType.assemble rC4w [] [] .DEFAULT_ENABLED .NOT_SUPPORTED []) := rfl
    have hc := C4_conditional_substructures rC4w _ h
    refine ⟨_, h, ?_, ?_, ?_⟩
    · exact (hc.2.1 _ rfl).1
    · exact ((hc.2.1 _ rfl).2.2).trans rfl
    · exact ((hc.2.2.2.2.2.2.2.2.2 (by decide)).2.2.1).trans rfl
  · have h : InstanceType.init {} =
        .ok (InstanceType.assemble {} [] [] .NOT_SUPPORTED .NOT_SUPPORTED []) := rfl
    have hc := C4_conditional_substructures {} _ h
    refine ⟨_, h, (hc.1 rfl).1, (hc.2.2.2.2.1 rfl).2, ?_, (hc.2.2.2.2.2.2.1 rfl).1⟩
    exact (hc.2.2.2.2.2.2.2.2.1 (by decide)).2.2.1

/-- Counterexample to C5 as stated: on the empty record (instance storage
absent) the NVMe-support field is set — to "not supported" — rather than
left unset; and on a record with the storage flag set, it is left unset
rather than set. -/
theorem C5_counterexample :
    (∃ it, InstanceType.init {} = .ok it ∧
      it.instance_store_nvme_support = some NvmeSupportStatus.NOT_SUPPORTED) ∧
    (∃ it, InstanceType.init { InstanceStorageSupported := some true } = .ok it ∧
      it.instance_store_nvme_support = none) :=
  ⟨⟨_, rfl, rfl⟩, ⟨_, rfl, rfl⟩⟩

/-- Claim C5, amended (the source's behaviour is the reverse of the claim):
when instance storage is absent (the `InstanceStorageSupported` flag is
falsy), the NVMe-support field is set to "not supported" and all sibling
storage fields take their "unsupported"/zero defaults; when instance storage
is present (the flag is truthy), the NVMe-support field is left entirely
unset. -/
theorem C5_nvme_asymmetry (r : RawInstanceType) (it : InstanceType)
    (h : InstanceType.init r = .ok it) :
    (r.InstanceStorageSupported.getD false = false →
      it.instance_store_nvme_support = some NvmeSupportStatus.NOT_SUPPORTED ∧
      it.total_instance_store_size = 0 ∧ it.instance_store_disks = [] ∧
      it.instance_store_encryption = false) ∧
    (r.InstanceStorageSupported.getD false = true →
      it.instance_store_nvme_support = none) := by
  obtain ⟨a, d, e, n, p, ha, hd, he, hn, hp, hit⟩ := init_ok_elim h
  subst hit
  constructor
  · intro hflag
    refine ⟨?_, ?_, ?_, ?_⟩
    · simp [InstanceType.assemble, hflag]
    · simp [InstanceType.assemble, hflag]
    · show d = []
      unfold disksInit at hd
      rw [hflag] at hd
      simpa [pure, Except.pure] using hd.symm
    · simp [InstanceType.assemble, hflag]
  · intro hflag
    simp [InstanceType.assemble, hflag]

/-- Witness for C5 (amended): both branches at concrete records. -/
theorem C5_nvme_asymmetry_witness :
    (∃ it, InstanceType.init {} = .ok it ∧
      it.instance_store_nvme_support = some NvmeSupportStatus.NOT_SUPPORTED ∧
      it.instance_store_disks = []) ∧
    (∃ it, InstanceType.init { InstanceStorageSupported := some true } = .ok it ∧
      it.instance_store_nvme_support = none) := by
  constructor
  · have h : InstanceType.init {} =
        .ok (InstanceType.assemble {} [] [] .NOT_SUPPORTED .NOT_SUPPORTED []) := rfl
    have hc := C5_nvme_asymmetry {} _ h
    exact ⟨_, h, (hc.1 rfl).1, (hc.1 rfl).2.2.1⟩
  · have h : InstanceType.init { InstanceStorageSupported := some true } =
        .ok (InstanceType.assemble { InstanceStorageSupported := some true }
          [] [] .NOT_SUPPORTED .NOT_SUPPORTED []) := rfl
    exact ⟨_, h, (C5_nvme_asymmetry _ _ h).2 rfl⟩

/-! ## Region-fetch resolution predicate (spec side) -/

/-- A region name resolves: both the location and the display-name parameters
are found (last occurrence wins) and are non-falsy. -/
def regionResolvable (ssm : String → List SsmParameter) (region_name : String) : Bool :=
  match resolveRegionParams (regionParamPath region_name)
      (ssm (regionParamPath region_name)) with
  | (some location, some display_name) => location != "" && display_name != ""
  | _ => false

/-- The `_RegionInfo` built for a resolvable region name. -/
def regionEntry (ssm : String → List SsmParameter) (region_name : String) : RegionInfo :=
  ⟨region_name,
    (resolveRegionParams (regionParamPath region_name)
      (ssm (regionParamPath region_name))).1.getD "",
    (resolveRegionParams (regionParamPath region_name)
      (ssm (regionParamPath region_name))).2.getD ""⟩

/-- Concrete SSM lookup for the two-region scenario: `region-one` has both
parameters, `region-two` is missing the display name (`longName`). -/
def ssmEx (path : String) : List SsmParameter :=
  if path = regionParamPath "region-one" then
    [⟨regionParamPath "region-one" ++ "/geolocationRegion", "Location One"⟩,
     ⟨regionParamPath "region-one" ++ "/longName", "Region One"⟩]
  else if path = regionParamPath "region-two" then
    [⟨regionParamPath "region-two" ++ "/geolocationRegion", "Location Two"⟩]
  else []

/-- Claim C8: region fetch returns exactly the listed regions for which both
the location and the display-name parameters resolve, in list order; a
region missing either value is silently skipped and never causes an error
(`get_regions` is total); in particular, of two raw regions where the first
resolves fully and the second is missing the display name, exactly the first
is returned. -/
theorem C8_region_fetch :
    (∀ (ssm : String → List SsmParameter) (names : List String),
      get_regions ssm names =
        (names.filter (regionResolvable ssm)).map (regionEntry ssm)) ∧
    get_regions ssmEx ["region-one", "region-two"] =
      [⟨"region-one", "Location One", "Region One"⟩] := by
  constructor
  · intro ssm names
    induction names with
    | nil => rfl
    | cons nm rest ih =>
      show (match resolveRegionParams (regionParamPath nm) (ssm (regionParamPath nm)) with
        | (some location, some display_name) =>
          if location = "" ∨ display_name = "" then get_regions ssm rest
          else ⟨nm, location, display_name⟩ :: get_regions ssm rest
        | _ => get_regions ssm rest) =
        ((nm :: rest).filter (regionResolvable ssm)).map (regionEntry ssm)
      cases hres : resolveRegionParams (regionParamPath nm) (ssm (regionParamPath nm)) with
      | mk lo disp =>
        rcases lo with - | l <;> rcases disp with - | dsp
        · simp [List.filter_cons, regionResolvable, hres, ih]
        · simp [List.filter_cons, regionResolvable, hres, ih]
        · simp [List.filter_cons, regionResolvable, hres, ih]
        · by_cases hempty : l = "" ∨ dsp = ""
          · have hrb : regionResolvable ssm nm = false := by
              unfold regionResolvable
              rw [hres]
              rcases hempty with he | he <;> simp [he]
            simp [List.filter_cons, hrb, if_pos hempty, ih]
          · have hrb : regionResolvable ssm nm = true := by
              unfold regionResolvable
              rw [hres]
              push_neg at hempty
              simp [hempty.1, hempty.2]
            have hentry : regionEntry ssm nm = ⟨nm, l, dsp⟩ := by
              unfold regionEntry
              rw [hres]
              rfl
            simp [List.filter_cons, hrb, if_neg hempty, ih, hentry]
  · rfl

/-! ## Pagination of the instance-type fetch -/

/-- Claim C9: when every page before the last carries a continuation token
and the last does not, the fetch returns the concatenation, in input
iteration order, of every raw record of every page mapped through the field
mapper — no record skipped, duplicated or reordered (a mapping failure on
any record propagates, as the uncaught exception would). -/
theorem C9_pagination (ps : List InstanceTypesPage) (plast : InstanceTypesPage)
    (hps : ∀ p ∈ ps, p.NextToken.isSome = true) (hlast : plast.NextToken = none) :
    get_instance_types (ps ++ [plast]) =
      (((ps ++ [plast]).map InstanceTypesPage.InstanceTypes).join).mapM
        InstanceType.init := by
  induction ps with
  | nil =>
    show (do
      let its ← plast.InstanceTypes.mapM InstanceType.init
      match plast.NextToken with
      | none => pure its
      | some _ => do
        let more ← get_instance_types []
        pure (its ++ more)) = _
    rw [hlast]
    have hjoin : (([plast].map InstanceTypesPage.InstanceTypes).join) =
        plast.InstanceTypes := by simp
    simp only [List.nil_append]
    rw [hjoin]
    cases hm : plast.InstanceTypes.mapM InstanceType.init with
    | error e => rw [except_error_bind]
    | ok l =>
      rw [except_ok_bind]
      rfl
  | cons p ps ih =>
    have hp : p.NextToken.isSome = true := hps p (by simp)
    obtain ⟨t, ht⟩ := Option.isSome_iff_exists.1 hp
    have ih' := ih fun q hq => hps q (by simp [hq])
    show (do
      let its ← p.InstanceTypes.mapM InstanceType.init
      match p.NextToken with
      | none => pure its
      | some _ => do
        let more ← get_instance_types (ps ++ [plast])
        pure (its ++ more)) = _
    rw [ht, ih']
    simp only [List.cons_append, List.map_cons, List.join_cons, List.mapM_append]

/-- First page of the C9 witness (carries a token). -/
def pageA : InstanceTypesPage :=
  { InstanceTypes := [{}], NextToken := some "token-1" }

/-- Last page of the C9 witness (no token). -/
def pageB : InstanceTypesPage :=
  { InstanceTypes := [{ InstanceType := some "m5.large" }], NextToken := none }

/-- Witness for C9: two concrete pages. -/
theorem C9_pagination_witness :
    get_instance_types [pageA, pageB] =
      (([pageA, pageB].map InstanceTypesPage.InstanceTypes).join).mapM
        InstanceType.init :=
  C9_pagination [pageA] pageB (by simp [pageA]) rfl
